import Mathlib

/-!
Verification of the LeftOvers scanner (thezakman/LeftOvers).

This file gives a shallow embedding of the parts of the code base that the
checked claims are about:

  - src/utils/http_utils.py : calculate_content_hash, LRUCache, HttpClient.get
  - src/core/detection.py   : check_false_positive and its helper heuristics
  - src/core/result.py      : ScanResult.mark_as_false_positive
  - src/utils/url_utils.py  : generate_test_urls and its generator helpers

Python bytes are modelled as List Nat, Python floats as rationals, Python
dicts as association lists (insertion ordered, like CPython dicts and
OrderedDict).  External library primitives that the repository merely calls
(hashlib md5 hex digests, difflib SequenceMatcher.ratio, bytes.decode) are
taken as explicit function parameters, so every theorem quantifies over
them; everything written in the repository itself is translated directly.
-/

namespace LeftOvers

/-! ## Basic string helpers (Python primitives used throughout the code)

These are spelled out over the character lists of the strings so that every
definition evaluates inside the kernel. -/

/-- Occurrence of pat somewhere in l (character-level substring test). -/
def listContainsSub (l pat : List Char) : Bool :=
  if pat.isPrefixOf l then true
  else match l with
    | [] => false
    | _ :: rest => listContainsSub rest pat

/-- Python substring test: pat in s. -/
def strContains (s pat : String) : Bool :=
  listContainsSub s.data pat.data

/-- Python str.lower() (ASCII case folding, which is all the code feeds it). -/
def lowerStr (s : String) : String :=
  String.mk (s.data.map Char.toLower)

/-- Python str.startswith. -/
def pyStartsWith (s pat : String) : Bool :=
  pat.data.isPrefixOf s.data

/-- Python str.endswith. -/
def pyEndsWith (s pat : String) : Bool :=
  pat.data.isSuffixOf s.data

/-- Splitter behind pySplit: walk the characters, emitting the accumulated
piece whenever the separator occurs.  The fuel argument is a structural
bound on the number of steps; every call sites passes enough for the walk
to complete (one unit per consumed character plus one for the final
emptiness test). -/
def splitOnListAux (sep : List Char) : Nat → List Char → List Char → List (List Char)
  | 0, l, acc => [acc.reverse ++ l]
  | _ + 1, [], acc => [acc.reverse]
  | fuel + 1, c :: rest, acc =>
    if sep.isPrefixOf (c :: rest) then
      acc.reverse :: splitOnListAux sep fuel (rest.drop (sep.length - 1)) []
    else
      splitOnListAux sep fuel rest (c :: acc)

/-- Python str.split with a nonempty separator. -/
def pySplit (s sep : String) : List String :=
  (splitOnListAux sep.data (s.data.length + 1) s.data []).map (fun l => String.mk l)

/-- Python str.join / String.intercalate. -/
def joinWith (sep : String) : List String → String
  | [] => ""
  | [x] => x
  | x :: xs => x ++ sep ++ joinWith sep xs

/-- Lexicographic order on character lists (the order Python sorted uses on
the ASCII strings the code sorts). -/
def charListLe : List Char → List Char → Bool
  | [], _ => true
  | _ :: _, [] => false
  | a :: as, b :: bs => if a = b then charListLe as bs else decide (a < b)

/-- Python string comparison for sorted. -/
def strLe (a b : String) : Bool :=
  charListLe a.data b.data

/-- Python str.strip(): remove leading and trailing whitespace. -/
def pyStrip (l : List Char) : List Char :=
  ((l.dropWhile Char.isWhitespace).reverse.dropWhile Char.isWhitespace).reverse

/-- Python int(...) applied to a header string: parse an optionally signed
decimal integer, ignoring surrounding whitespace. -/
def pyParseInt (s : String) : Option Int :=
  let trimmed := pyStrip s.data
  let core : Option (Int × List Char) :=
    match trimmed with
    | '-' :: rest => some (-1, rest)
    | '+' :: rest => some (1, rest)
    | l => some (1, l)
  match core with
  | some (sign, digits) =>
    if digits ≠ [] ∧ digits.all Char.isDigit then
      some (sign * (Int.ofNat (digits.foldl (fun acc c => acc * 10 + (c.toNat - 48)) 0)))
    else none
  | none => none

/-- Python str.isalnum(): nonempty and every character alphanumeric. -/
def pyIsAlnum (s : String) : Bool :=
  s.length > 0 && s.data.all Char.isAlphanum

theorem length_dropWhile_le (p : Char → Bool) (l : List Char) :
    (l.dropWhile p).length ≤ l.length := by
  induction l with
  | nil => simp [List.dropWhile]
  | cons c cs ih =>
    by_cases h : p c
    · simp [List.dropWhile, h]; omega
    · simp [List.dropWhile, h]

/-- Everything after the first '>' character (used to model the regex
tag-stripping in detection.py, where a match consumes through the first
closing angle bracket). -/
def dropToGt (l : List Char) : List Char :=
  (l.dropWhile (fun c => !(c == '>'))).drop 1

theorem length_dropToGt_le (l : List Char) : (dropToGt l).length ≤ l.length := by
  unfold dropToGt
  have h1 := length_dropWhile_le (fun c => !(c == '>')) l
  have h2 := List.length_drop 1 (l.dropWhile (fun c => !(c == '>')))
  omega

/-- Fuel-bounded worker for stripHtmlTags; the fuel is a structural bound on
the consumed characters. -/
def stripHtmlTagsFuel : Nat → List Char → List Char
  | 0, l => l
  | _ + 1, [] => []
  | fuel + 1, c :: rest =>
    if c == '<' && rest.head? != some '>' && rest.contains '>' then
      ' ' :: stripHtmlTagsFuel fuel (dropToGt rest)
    else
      c :: stripHtmlTagsFuel fuel rest

/-- Model of re.sub applied to the HTML-tag pattern in _extract_text_content:
each leftmost occurrence of an angle bracket, at least one non-closing
character, and a closing angle bracket is replaced by a single space. -/
def stripHtmlTags (l : List Char) : List Char :=
  stripHtmlTagsFuel (l.length + 1) l

/-- Fuel-bounded worker for collapseWhitespace. -/
def collapseWhitespaceFuel : Nat → List Char → List Char
  | 0, l => l
  | _ + 1, [] => []
  | fuel + 1, c :: rest =>
    if c.isWhitespace then
      ' ' :: collapseWhitespaceFuel fuel (rest.dropWhile Char.isWhitespace)
    else
      c :: collapseWhitespaceFuel fuel rest

/-- Model of re.sub applied to the whitespace pattern in
_extract_text_content: every maximal run of whitespace becomes one space. -/
def collapseWhitespace (l : List Char) : List Char :=
  collapseWhitespaceFuel (l.length + 1) l

/-- Model of detection._extract_text_content: decode the body (decoding with
errors ignored is an external primitive passed in as decodeUtf8), strip HTML
tags, collapse whitespace, strip the ends. -/
def extractTextContent (decodeUtf8 : List Nat → String) (content : List Nat) : String :=
  String.mk (pyStrip (collapseWhitespace (stripHtmlTags (decodeUtf8 content).data)))

/-! ## calculate_content_hash (src/utils/http_utils.py) -/

/-- Model of http_utils.calculate_content_hash.  The md5 hex digest itself is
the external hashlib primitive, passed in as md5hex. -/
def calculate_content_hash (md5hex : List Nat → String) (content : List Nat) : String :=
  if content = [] then ""
  else if content.length > 1024 * 100 then
    md5hex (content.take 4096 ++ content.drop (content.length - 4096))
  else
    md5hex content

/-! ## Text similarity (detection._compute_text_similarity and helpers) -/

/-- Characters the regex word pattern accepts in _token_set_similarity. -/
def isWordChar (c : Char) : Bool :=
  c.isAlphanum || c == '_'

/-- Fuel-bounded worker for wordRuns. -/
def wordRunsFuel : Nat → List Char → List (List Char)
  | 0, _ => []
  | _ + 1, [] => []
  | fuel + 1, c :: rest =>
    if isWordChar c then
      (c :: rest.takeWhile isWordChar) :: wordRunsFuel fuel (rest.dropWhile isWordChar)
    else
      wordRunsFuel fuel rest

/-- Maximal runs of word characters, the token stream of re.findall applied
to the word pattern in _token_set_similarity. -/
def wordRuns (l : List Char) : List (List Char) :=
  wordRunsFuel (l.length + 1) l

/-- Model of detection._token_set_similarity: word-level Jaccard similarity
of the lowercased texts. -/
def tokenSetSimilarity (text1 text2 : String) : ℚ :=
  let words1 := ((wordRuns (lowerStr text1).data).map (fun l => String.mk l)).dedup
  let words2 := ((wordRuns (lowerStr text2).data).map (fun l => String.mk l)).dedup
  if words1 = [] ∨ words2 = [] then 0
  else
    let inter := words1.filter (fun w => w ∈ words2)
    let union := (words1 ++ words2).dedup
    (inter.length : ℚ) / (union.length : ℚ)

/-- Model of detection._compute_text_similarity.  The short-text branch calls
difflib.SequenceMatcher(None, a, b).ratio(), an external stdlib primitive
passed in as seqSim. -/
def computeTextSimilarity (seqSim : String → String → ℚ) (text1 text2 : String) : ℚ :=
  if text1 = text2 then 1
  else if text1 = "" ∨ text2 = "" then 0
  else if text1.length > 1000 ∨ text2.length > 1000 then tokenSetSimilarity text1 text2
  else seqSim text1 text2

/-- Python percent formatting with zero decimals, as used in the reason
strings of check_false_positive. -/
def formatPercent (q : ℚ) : String :=
  toString (round (q * 100)) ++ "%"

/-! ## Data model (src/core/result.py and the dict shapes of detection.py) -/

/-- Model of the ScanResult dataclass (src/core/result.py).  The timestamp
field is omitted: it is display-only and never read by the code under
verification. -/
structure ScanResult where
  url : String
  status_code : Nat
  content_type : String
  content_length : Nat
  response_time : ℚ := 0
  test_type : String := ""
  extension : String := ""
  content_hash : String := ""
  false_positive : Bool := false
  false_positive_reason : String := ""
  large_file : Bool := false
  truncated : Bool := false
deriving DecidableEq

/-- Model of ScanResult.mark_as_false_positive (src/core/result.py). -/
def ScanResult.markAsFalsePositive (r : ScanResult) (reason : String) : ScanResult :=
  { r with false_positive := true, false_positive_reason := reason }

/-- One baseline entry as stored by establish_baseline (detection.py):
fields the classifier actually reads (headers, url, response_time are
recorded but never consulted by check_false_positive). -/
structure BaselineEntry where
  content_hash : String
  content_type : String
  content_length : Nat
  text_content : String
deriving DecidableEq

/-- The main-page fingerprint dict built by establish_baseline
(detection.py); again restricted to the fields check_false_positive reads. -/
structure MainPage where
  size : Nat
  hash : String
  status : Nat
  content_type : String
  text_content : String
deriving DecidableEq

/-- SUCCESS_STATUSES from app_settings.py. -/
def isSuccessStatus (s : Nat) : Bool :=
  s == 200 || s == 206

/-! ## SPA fallback detection (detection._check_spa_fallback) -/

/-- The spa_patterns table of _check_spa_fallback, in source order. -/
def spaPatterns : List (String × String) :=
  [("id=\"root\"", "React app root element"),
   ("id=\"app\"", "Vue/generic app root element"),
   ("<div id=\"root\"", "React root div"),
   ("<div id=\"app\"", "App root div"),
   ("ng-app", "AngularJS app"),
   ("src=\"/assets/", "Vite/modern build assets"),
   ("src=\"/static/", "Create React App static assets"),
   ("crossorigin src=", "Modern module script"),
   ("/assets/index-", "Vite build pattern"),
   ("name=\"viewport\"", "SPA viewport meta tag"),
   ("type=\"module\"", "ES6 module script"),
   ("react", "React framework reference"),
   ("vue", "Vue framework reference"),
   ("angular", "Angular framework reference"),
   ("webpack", "Webpack bundler"),
   ("vite", "Vite bundler"),
   ("parcel", "Parcel bundler")]

/-- The html_extensions set of _check_spa_fallback. -/
def htmlExtensionsList : List String :=
  ["html", "htm", "php", "asp", "aspx", "jsp"]

/-- The non_html_extensions set of _check_spa_fallback. -/
def nonHtmlExtensionsList : List String :=
  ["zip", "rar", "tar", "gz", "pdf", "doc", "docx", "xls", "xlsx",
   "ppt", "pptx", "json", "xml", "txt", "csv", "sql", "bak", "log"]

/-- Model of detection._check_spa_fallback. -/
def checkSpaFallback (htmlContent : String) (url : String) : String :=
  let requestedExtension :=
    if strContains url "." then lowerStr (((pySplit url ".").getLastD "")) else ""
  if htmlExtensionsList.contains requestedExtension then ""
  else
    let htmlLower := lowerStr htmlContent
    let detected := (spaPatterns.filter (fun p => strContains htmlLower p.1)).map Prod.snd
    let detected :=
      if nonHtmlExtensionsList.contains requestedExtension
          && (spaPatterns.take 6).any (fun p => strContains htmlLower p.1) then
        detected ++ ["HTML content returned for ." ++ requestedExtension ++ " file"]
      else detected
    if detected.length ≥ 2 then
      "SPA serving HTML for ." ++ requestedExtension ++ " request (" ++
        joinWith ", " (detected.take 3) ++ ")"
    else ""

/-! ## Leftover-pattern scoring (detection._is_likely_leftover_file) -/

/-- backup_indicators of _is_likely_leftover_file. -/
def backupIndicators : List String :=
  ["backup", "bak", "old", "orig", "save", "copy", "tmp", "temp",
   "archive", "dump", "_old", "_bak", "_backup", "_copy", "_save",
   "test", "dev", "staging", "debug", "log"]

/-- date_patterns of _is_likely_leftover_file. -/
def leftoverDatePatterns : List String :=
  ["2023", "2024", "2025", "_2023", "_2024", "_2025"]

/-- leftover_extensions of _is_likely_leftover_file. -/
def leftoverExtensions : List String :=
  [".sql", ".dump", ".db", ".sqlite", ".zip", ".tar", ".gz", ".bak",
   ".old", ".orig", ".log", ".txt", ".env", ".config", ".ini"]

/-- sql_patterns of _is_likely_leftover_file. -/
def leftoverSqlPatterns : List String :=
  ["insert into", "create table", "drop table", "mysqldump"]

/-- config_patterns of _is_likely_leftover_file. -/
def leftoverConfigPatterns : List String :=
  ["password=", "api_key=", "secret=", "[database]", "db_host="]

/-- log_patterns of _is_likely_leftover_file. -/
def leftoverLogPatterns : List String :=
  ["error:", "warning:", "debug:", "exception:", "traceback"]

/-- binary_types of _is_likely_leftover_file. -/
def leftoverBinaryTypes : List String :=
  ["application/zip", "application/x-gzip", "application/octet-stream",
   "application/x-tar", "application/sql", "text/x-sql"]

/-- Model of detection._is_likely_leftover_file.  bytes.decode with errors
ignored is the external primitive decodeUtf8. -/
def isLikelyLeftoverFile (decodeUtf8 : List Nat → String)
    (result : ScanResult) (responseContent : List Nat) : Bool :=
  if !(isSuccessStatus result.status_code) then false
  else
    let urlPath :=
      if strContains result.url "/" then lowerStr (((pySplit result.url "/").getLastD "")) else ""
    let hasBackupPattern := backupIndicators.any (fun ind => strContains urlPath ind)
    let hasDatePattern := leftoverDatePatterns.any (fun p => strContains urlPath p)
    let hasLeftoverExtension := leftoverExtensions.any (fun e => pyEndsWith urlPath e)
    let contentIndicatesLeftover :=
      if responseContent ≠ [] && result.content_type ≠ "" then
        let contentTypeLower := lowerStr result.content_type
        if strContains contentTypeLower "text/" || strContains contentTypeLower "application/json" then
          let textContent := String.mk ((decodeUtf8 responseContent).data.take 2000)
          let textLower := lowerStr textContent
          leftoverSqlPatterns.any (fun p => strContains textLower p)
            || leftoverConfigPatterns.any (fun p => strContains textLower p)
            || leftoverLogPatterns.any (fun p => strContains textLower p)
        else false
      else false
    let isLegitimateBinary :=
      if result.content_type ≠ "" then
        leftoverBinaryTypes.any (fun b => strContains (lowerStr result.content_type) b)
          && result.content_length > 100
      else false
    let score := hasBackupPattern.toNat + hasDatePattern.toNat + hasLeftoverExtension.toNat
      + contentIndicatesLeftover.toNat + isLegitimateBinary.toNat
    score ≥ 2

/-! ## The decision chain of check_false_positive (detection.py)

Each early return of the Python function becomes one step producing
Option (Bool × String): some r models return r, none models falling
through to the next check.  firstSome plays the sequence of returns. -/

/-- Plays a sequence of early-return checks: the first check that returns a
value decides; if none does, the function falls through to (false, ""). -/
def firstSome : List (Option (Bool × String)) → Bool × String
  | [] => (false, "")
  | some r :: _ => r
  | none :: rest => firstSome rest

/-- Sort a list of strings in increasing order (Python sorted on str). -/
def insertSorted (x : String) : List String → List String
  | [] => [x]
  | y :: ys => if strLe x y then x :: y :: ys else y :: insertSorted x ys

/-- Python sorted for lists of strings. -/
def sortStrings (l : List String) : List String :=
  l.foldr insertSorted []

/-- The ASCII bytes of the percent-PDF magic marker. -/
def pdfMagicUpper : List Nat := [37, 80, 68, 70, 45]

/-- The ASCII bytes of the lowercase percent-pdf magic marker. -/
def pdfMagicLower : List Nat := [37, 112, 100, 102, 45]

/-- Step: skip classification for zero-sized responses (detection.py line
225): a zero content length returns (False, "") immediately. -/
def zeroLengthStep (contentLength : Nat) : Option (Bool × String) :=
  if contentLength = 0 then some (false, "") else none

/-- Step: PDF special-handling (detection.py lines 230 to 235).  A success
status whose content type or URL says PDF and whose body starts with the
PDF magic bytes returns (False, "") immediately; otherwise fall through. -/
def pdfSignatureStep (statusCode : Nat) (contentType url : String)
    (content : List Nat) : Option (Bool × String) :=
  if isSuccessStatus statusCode
      && ((contentType != "" && strContains (lowerStr contentType) "application/pdf")
          || pyEndsWith (lowerStr url) ".pdf")
      && content.length ≥ 5
      && (content.take 5 == pdfMagicUpper || content.take 5 == pdfMagicLower) then
    some (false, "")
  else none

/-- Step: fast path for 404 responses (detection.py line 238). -/
def notFoundStep (statusCode : Nat) : Option (Bool × String) :=
  if statusCode = 404 then
    some (true, "404 responses are typically not residual files")
  else none

/-- Extract a file extension from a URL the way the hash-frequency check
does (detection.py lines 260 to 264). -/
def extractUrlExtension (url : String) : Option String :=
  if strContains url "." then
    let ext := lowerStr ((pySplit url ".").getLastD "")
    if ext.length ≤ 5 then some ext else none
  else none

/-- Step: same content hash observed for three or more distinct file
extensions (detection.py lines 257 to 268).  urlsWithHash is the url set
recorded for the current content hash, current url already added. -/
def hashMultiExtStep (urlsWithHash : List String) : Option (Bool × String) :=
  if urlsWithHash.length ≥ 3 then
    if ((urlsWithHash.filterMap extractUrlExtension).dedup).length ≥ 3 then
      some (true, "Same content returned for multiple file extensions: " ++
        joinWith ", " (sortStrings ((urlsWithHash.filterMap extractUrlExtension).dedup)))
    else none
  else none

/-- Step: repeated identical (status, length, content-type) responses
(detection.py lines 277 to 289).  newCount is the frequency counter for the
size key after this response was counted. -/
def sizeRepetitionStep (statusCode : Nat) (contentType : String)
    (contentLength : Nat) (newCount : Nat) : Option (Bool × String) :=
  if newCount ≥ 3 then
    if isSuccessStatus statusCode then
      if strContains (lowerStr contentType) "text/html" && contentLength < 2000 then
        some (true, "Multiple identical small HTML responses with status " ++
          toString statusCode ++ " (likely custom error page)")
      else if newCount ≥ 5 then
        some (true, "Multiple identical responses with status " ++ toString statusCode)
      else none
    else
      some (true, "Multiple identical responses with status " ++ toString statusCode)
  else none

/-- Step: success response whose hash matches some baseline response
(detection.py lines 292 to 297). -/
def baselineHashStep (statusCode : Nat) (contentHash : String)
    (baselineResponses : List (Nat × List BaselineEntry)) : Option (Bool × String) :=
  if isSuccessStatus statusCode && baselineResponses != [] then
    match (baselineResponses.flatMap (fun p => p.2.map (fun b => (p.1, b)))).find?
        (fun q => contentHash == q.2.content_hash) with
    | some q => some (true, "Response hash matches baseline " ++ toString q.1 ++
        " response (server returns same content for non-existent files)")
    | none => none
  else none

/-- Step: error response whose text is similar to a 404 baseline text
(detection.py lines 300 to 311). -/
def baseline404Step (seqSim : String → String → ℚ) (statusCode : Nat)
    (textContent : String) (threshold : ℚ)
    (baselineResponses : List (Nat × List BaselineEntry)) : Option (Bool × String) :=
  if statusCode ≥ 400 && (baselineResponses.find? (fun p => p.1 == 404)).isSome
      && textContent != "" then
    match (((baselineResponses.find? (fun p => p.1 == 404)).map Prod.snd).getD []).find?
        (fun b => b.text_content != ""
          && threshold < computeTextSimilarity seqSim textContent b.text_content) with
    | some b => some (true, "Response text is " ++
        formatPercent (computeTextSimilarity seqSim textContent b.text_content) ++
        " similar to 404 error page")
    | none => none
  else none

/-- Step: comparison against the main page (detection.py lines 314 to 338):
exact hash match, near-identical size with same content type, or very high
text similarity for success statuses. -/
def mainPageStep (seqSim : String → String → ℚ) (statusCode : Nat)
    (contentType : String) (contentLength : Nat) (contentHash : String)
    (textContent : String) (mainPage : Option MainPage) : Option (Bool × String) :=
  match mainPage with
  | none => none
  | some mp =>
    if contentHash = "" then none
    else if contentHash = mp.hash then
      some (true, "Response hash matches main page (SPA fallback or site returns same content)")
    else if isSuccessStatus statusCode then
      if mp.size ≠ 0 ∧ 0 < contentLength then
        let sizeQuot : ℚ := ((min contentLength mp.size : Nat) : ℚ) / ((max contentLength mp.size : Nat) : ℚ)
        if (97 : ℚ)/100 < sizeQuot ∧ contentType = mp.content_type then
          some (true, "Response very similar to main page (likely same content with small variations)")
        else if (4 : ℚ)/5 < sizeQuot ∧ contentType = mp.content_type ∧ textContent ≠ ""
            ∧ mp.text_content ≠ ""
            ∧ (19 : ℚ)/20 < computeTextSimilarity seqSim textContent mp.text_content then
          some (true, "Response text is " ++
            formatPercent (computeTextSimilarity seqSim textContent mp.text_content) ++
            " similar to main page content")
        else none
      else none
    else none

/-- The binary content-type markers of detection.py lines 343 to 345. -/
def binaryContentMarkers : List String :=
  ["pdf", "octet-stream", "image/", "audio/", "video/",
   "zip", "excel", "word", "powerpoint", "binary"]

/-- Step: binary content with success status is never a false positive
(detection.py lines 342 to 349). -/
def binaryContentStep (statusCode : Nat) (contentType : String) : Option (Bool × String) :=
  if isSuccessStatus statusCode
      && binaryContentMarkers.any (fun m => strContains (lowerStr contentType) m) then
    some (false, "")
  else none

/-- Step: SPA fallback detection (detection.py lines 352 to 360). -/
def spaFallbackStep (decodeUtf8 : List Nat → String) (statusCode : Nat)
    (url : String) (content : List Nat) : Option (Bool × String) :=
  if isSuccessStatus statusCode && content != [] then
    if checkSpaFallback (decodeUtf8 content) url ≠ "" then
      some (true, "Detected SPA fallback: " ++ checkSpaFallback (decodeUtf8 content) url)
    else none
  else none

/-- Step: positive leftover scoring (detection.py lines 363 to 366). -/
def leftoverStep (decodeUtf8 : List Nat → String) (result : ScanResult)
    (content : List Nat) : Option (Bool × String) :=
  if isLikelyLeftoverFile decodeUtf8 result content then some (false, "") else none

/-- The hash-frequency set for the current content hash after the current
url is recorded into it (detection.py lines 217 to 222). -/
def updatedHashUrls (hashFrequency : String → List String) (contentHash url : String) :
    List String :=
  if url ∈ hashFrequency contentHash then hashFrequency contentHash
  else url :: hashFrequency contentHash

/-- The size-frequency key (detection.py line 251): status, length and base
content type. -/
def sizeFrequencyKey (result : ScanResult) : String :=
  toString result.status_code ++ ":" ++ toString result.content_length
    ++ ":" ++ ((pySplit result.content_type ";").headD "")

/-- The status-dependent similarity threshold (detection.py lines 242 to
248). -/
def classifierThreshold (statusCode : Nat) : ℚ :=
  if isSuccessStatus statusCode then 9/10 else 7/10

/-- The cached text extraction of detection.py lines 270 to 273: extracted
once for text content types with a nonempty body, empty otherwise (the
source keeps None there; both are falsy everywhere the value is tested). -/
def classifierTextContent (decodeUtf8 : List Nat → String) (result : ScanResult)
    (responseContent : List Nat) : String :=
  if strContains (lowerStr result.content_type) "text" && responseContent != [] then
    extractTextContent decodeUtf8 responseContent
  else ""

/-- Model of detection.check_false_positive.  The md5 digest, the difflib
sequence ratio and utf-8 decoding with ignored errors are external stdlib
primitives passed as parameters.  The in-place growth of size_frequency and
hash_frequency is modelled by the updated values the rest of the function
reads (sizeFrequency at the size key plus one, updatedHashUrls); the
cross-call threading of those dictionaries is done by the scanner, not by
this function. -/
def check_false_positive (md5hex : List Nat → String)
    (seqSim : String → String → ℚ) (decodeUtf8 : List Nat → String)
    (result : ScanResult) (responseContent : List Nat)
    (baselineResponses : List (Nat × List BaselineEntry)) (mainPage : Option MainPage)
    (sizeFrequency : String → Nat) (hashFrequency : String → List String) :
    Bool × String :=
  firstSome
    [zeroLengthStep result.content_length,
     pdfSignatureStep result.status_code result.content_type result.url responseContent,
     notFoundStep result.status_code,
     hashMultiExtStep (updatedHashUrls hashFrequency
       (calculate_content_hash md5hex responseContent) result.url),
     sizeRepetitionStep result.status_code result.content_type result.content_length
       (sizeFrequency (sizeFrequencyKey result) + 1),
     baselineHashStep result.status_code (calculate_content_hash md5hex responseContent)
       baselineResponses,
     baseline404Step seqSim result.status_code
       (classifierTextContent decodeUtf8 result responseContent)
       (classifierThreshold result.status_code) baselineResponses,
     mainPageStep seqSim result.status_code result.content_type result.content_length
       (calculate_content_hash md5hex responseContent)
       (classifierTextContent decodeUtf8 result responseContent) mainPage,
     binaryContentStep result.status_code result.content_type,
     spaFallbackStep decodeUtf8 result.status_code result.url responseContent,
     leftoverStep decodeUtf8 result responseContent]

/-! ## URL generation (src/utils/url_utils.py)

generate_test_urls parses the target once (urllib, tldextract) and then
runs four pure generator tasks through a thread pool, followed by a
sequential brute-force phase.  The parsed components are the inputs of the
model (GenInput); each generator task is modelled as the exact ordered list
of add_test calls it makes, and add_test as the deduplicating fold it is in
the source.  The thread-pool interleaving of the tasks is an explicit
parameter (the order in which the add_test calls reach the shared set). -/

/-- Model of url_utils.is_ip_address: the anchored regex of four groups of
one to three digits separated by dots. -/
def isIpAddress (hostname : String) : Bool :=
  let parts := pySplit hostname "."
  parts.length == 4 &&
    parts.all (fun p => p.length ≥ 1 && p.length ≤ 3 && p.data.all Char.isDigit)

/-- COMMON_IP_PATH_TESTS from url_utils.py. -/
def COMMON_IP_PATH_TESTS : List String :=
  ["admin", "dashboard", "api", "app", "backup", "config", "data",
   "files", "logs", "private", "public", "system", "temp", "upload"]

/-- COMMON_PORTS from url_utils.py. -/
def COMMON_PORTS : List String :=
  ["8080", "8443", "9000"]

/-- The inputs of generate_test_urls after URL parsing: the components that
urllib.parse and tldextract produce from the target URL, plus the options.
The path field is parsed.path with slashes stripped, as parse_url returns
it.  The domain_wordlist option of the source only replaces backup_words by
an enhanced word list before the brute-force phase, so it is subsumed here
by quantification over backupWords. -/
structure GenInput where
  scheme : String
  hostname : String
  subdomain : String
  domainName : String
  suffix : String
  path : String
  bruteMode : Bool := false
  backupWords : List String := []
  bruteRecursive : Bool := false
deriving DecidableEq

/-- Path segments: path.split on slash when the path is nonempty. -/
def GenInput.pathSegments (i : GenInput) : List String :=
  if i.path = "" then [] else pySplit i.path "/"

/-- path_label of generate_test_urls: the full path when nonempty. -/
def GenInput.pathLabel (i : GenInput) : Option String :=
  if i.path = "" then none else some i.path

/-- scheme://hostname, the prefix every generated test URL starts with. -/
def GenInput.baseUrl (i : GenInput) : String :=
  i.scheme ++ "://" ++ i.hostname

/-- Model of url_utils._generate_base_tests, as its ordered add_test calls. -/
def baseTestCalls (i : GenInput) : List (String × String) :=
  match i.pathLabel with
  | some pl =>
    [(i.baseUrl ++ "/" ++ pl, "Full URL"), (i.baseUrl ++ "/" ++ pl, "Path")] ++
    (i.pathSegments.enum.filterMap (fun p =>
      if strContains p.2 "." then none
      else some (i.baseUrl ++ "/" ++ p.2, "Segment " ++ toString (p.1 + 1))))
  | none => []

/-- Splitting a composite subdomain at every dot, underscore and dash, as
the character-class regex split of _generate_subdomain_permutation_tests. -/
def splitSubdomainParts (subdomain : String) : List String :=
  ((((pySplit subdomain ".")).flatMap (fun s => pySplit s "_")).flatMap
    (fun s => pySplit s "-")).filter (fun s => s ≠ "")

/-- Model of url_utils._generate_subdomain_permutation_tests, as its ordered
add_test calls. -/
def subdomainPermutationCalls (i : GenInput) : List (String × String) :=
  let allParts := splitSubdomainParts i.subdomain
  if allParts.length ≥ 2 then
    let p1 := allParts.getD 0 ""
    let p2 := allParts.getD 1 ""
    let perms2 : List (String × String) :=
      [(p1 ++ "." ++ p2, "Permutation 1 (" ++ p1 ++ "." ++ p2 ++ ")"),
       (p1 ++ "_" ++ p2, "Permutation 2 (" ++ p1 ++ "_" ++ p2 ++ ")"),
       (p1 ++ p2, "Permutation 3 (" ++ p1 ++ p2 ++ ")"),
       (p2 ++ "." ++ p1, "Permutation 4 (" ++ p2 ++ "." ++ p1 ++ ")"),
       (p2 ++ "_" ++ p1, "Permutation 5 (" ++ p2 ++ "_" ++ p1 ++ ")"),
       (p2 ++ p1, "Permutation 6 (" ++ p2 ++ p1 ++ ")"),
       (p1, "Permutation 7 (" ++ p1 ++ ")"),
       (p2, "Permutation 8 (" ++ p2 ++ ")")]
    let perms3 : List (String × String) :=
      if allParts.length ≥ 3 then
        let p3 := allParts.getD 2 ""
        [(p1 ++ p2 ++ p3, "3-Part All: " ++ p1 ++ p2 ++ p3),
         (p1 ++ p3 ++ p2, "3-Part Alt1: " ++ p1 ++ p3 ++ p2),
         (p2 ++ p1 ++ p3, "3-Part Alt2: " ++ p2 ++ p1 ++ p3),
         (p2 ++ p3 ++ p1, "3-Part Alt3: " ++ p2 ++ p3 ++ p1),
         (p3 ++ p1 ++ p2, "3-Part Alt4: " ++ p3 ++ p1 ++ p2),
         (p3 ++ p2 ++ p1, "3-Part Alt5: " ++ p3 ++ p2 ++ p1),
         (p1 ++ p3, "Parts 1+3: " ++ p1 ++ p3),
         (p2 ++ p3, "Parts 2+3: " ++ p2 ++ p3),
         (p3 ++ p1, "Parts 3+1: " ++ p3 ++ p1),
         (p3 ++ p2, "Parts 3+2: " ++ p3 ++ p2),
         (p3, "3rd Part Only: " ++ p3),
         (p1 ++ "." ++ p2 ++ "." ++ p3, "3-Part Dots: " ++ p1 ++ "." ++ p2 ++ "." ++ p3),
         (p1 ++ "_" ++ p2 ++ "_" ++ p3, "3-Part Underscores: " ++ p1 ++ "_" ++ p2 ++ "_" ++ p3)]
      else []
    (perms2 ++ perms3).map (fun pd => (i.baseUrl ++ "/" ++ pd.1, pd.2))
  else []

/-- Model of url_utils._generate_domain_tests, as its ordered add_test calls. -/
def domainTestCalls (i : GenInput) : List (String × String) :=
  (if i.subdomain ≠ "" then
    (pySplit i.subdomain ".").map (fun sub => (i.baseUrl ++ "/" ++ sub, "Subdomain:" ++ sub))
   else []) ++
  (if i.domainName ≠ "" then [(i.baseUrl ++ "/" ++ i.domainName, "Domain Name")] else []) ++
  (if i.domainName ≠ "" ∧ i.suffix ≠ "" then
    [(i.baseUrl ++ "/" ++ i.domainName ++ "." ++ i.suffix, "Domain")]
   else []) ++
  (if i.subdomain ≠ "" ∧ (strContains i.subdomain "-" ∨ strContains i.subdomain "_"
      ∨ strContains i.subdomain ".") then
    subdomainPermutationCalls i
   else [])

/-- Model of url_utils._generate_leftover_tests, as its ordered add_test
calls. -/
def leftoverTestCalls (i : GenInput) : List (String × String) :=
  (if i.domainName ≠ "" then
    ["backup", "old", "bak", "temp"].flatMap (fun pat =>
      [(i.baseUrl ++ "/" ++ i.domainName ++ "_" ++ pat,
        "Domain Backup: " ++ i.domainName ++ "_" ++ pat),
       (i.baseUrl ++ "/" ++ pat ++ "_" ++ i.domainName,
        "Backup Domain: " ++ pat ++ "_" ++ i.domainName)])
   else []) ++
  (if i.subdomain ≠ "" then
    ((pySplit i.subdomain ".").filter (fun s => s ≠ "" ∧ s.length > 2)).flatMap (fun sp =>
      ["backup", "old", "bak"].map (fun pat =>
        (i.baseUrl ++ "/" ++ sp ++ "_" ++ pat, "Subdomain Backup: " ++ sp ++ "_" ++ pat)))
   else []) ++
  (match i.pathLabel with
   | some pl =>
     let pathBase := if strContains pl "/" then (pySplit pl "/").getLastD "" else pl
     ["backup", "old", "bak"].map (fun pat =>
       (i.baseUrl ++ "/" ++ pathBase ++ "_" ++ pat, "Path Backup: " ++ pathBase ++ "_" ++ pat))
   | none => []) ++
  (["backup", "bak", "old", "temp", "archive", "test"].map (fun pat =>
    (i.baseUrl ++ "/" ++ pat, "Common Leftover: " ++ pat))) ++
  (["dev", "test", "staging", "prod", "debug"].map (fun env =>
    (i.baseUrl ++ "/" ++ env, "Environment: " ++ env)))

/-- Model of url_utils._generate_partial_paths: the accumulated prefixes of
the path segments, the complete path excluded. -/
def partialPaths (segments : List String) : List String :=
  (segments.enum.foldl (fun (acc : String × List String) p =>
    let cur := if acc.1 ≠ "" then acc.1 ++ "/" ++ p.2 else p.2
    (cur, if p.1 = segments.length - 1 then acc.2 else acc.2 ++ [cur]))
    ("", [])).2

/-- Model of url_utils._generate_path_levels: the complete path followed by
every proper accumulated prefix. -/
def pathLevels (segments : List String) (pathLabel : String) : List String :=
  pathLabel :: (segments.enum.foldl (fun (acc : String × List String) p =>
    let cur := if p.1 = 0 then p.2 else acc.1 ++ "/" ++ p.2
    (cur, acc.2 ++ (if cur ≠ pathLabel then [cur] else [])))
    ("", [])).2

/-- Model of url_utils._test_domain_in_path, as its ordered add_test calls. -/
def testDomainInPathCalls (i : GenInput) (pathBase : String) : List (String × String) :=
  (if i.subdomain ≠ "" then
    [(i.baseUrl ++ "/" ++ pathBase ++ "/" ++ i.subdomain, "Path-Subdomain: /" ++ pathBase)]
   else []) ++
  (if i.domainName ≠ "" then
    [(i.baseUrl ++ "/" ++ pathBase ++ "/" ++ i.domainName, "Path-Domain-Name: /" ++ pathBase)]
   else []) ++
  (if i.domainName ≠ "" ∧ i.suffix ≠ "" then
    [(i.baseUrl ++ "/" ++ pathBase ++ "/" ++ i.domainName ++ "." ++ i.suffix,
      "Path-Domain: /" ++ pathBase)]
   else [])

/-- Model of url_utils._test_domain_in_path_level, as its ordered add_test
calls. -/
def testDomainInPathLevelCalls (i : GenInput) (pathLevel : String) : List (String × String) :=
  (if i.subdomain ≠ "" then
    [(i.baseUrl ++ "/" ++ pathLevel ++ "/" ++ i.subdomain,
      "Path-Current-Subdomain: /" ++ pathLevel)]
   else []) ++
  (if i.domainName ≠ "" then
    [(i.baseUrl ++ "/" ++ pathLevel ++ "/" ++ i.domainName,
      "Path-Current-Domain-Name: /" ++ pathLevel)]
   else []) ++
  (if i.domainName ≠ "" ∧ i.suffix ≠ "" then
    [(i.baseUrl ++ "/" ++ pathLevel ++ "/" ++ i.domainName ++ "." ++ i.suffix,
      "Path-Current-Domain: /" ++ pathLevel)]
   else []) ++
  [(i.baseUrl ++ "/" ++ pathLevel ++ "/" ++ i.hostname,
    "Path-Current-Hostname: /" ++ pathLevel)]

/-- Model of url_utils._generate_path_tests (non-IP targets with a path), as
its ordered add_test calls. -/
def pathTestCalls (i : GenInput) : List (String × String) :=
  let pl := (i.pathLabel).getD ""
  ((partialPaths i.pathSegments).flatMap (testDomainInPathCalls i)) ++
  (i.pathSegments.filterMap (fun seg =>
    if strContains seg "." then none
    else some (i.baseUrl ++ "/" ++ pl ++ "/" ++ seg, "Path-Current-Path: /" ++ seg))) ++
  ((pathLevels i.pathSegments pl).flatMap (testDomainInPathLevelCalls i))

/-- Model of url_utils._generate_ip_path_tests (IP targets with a path), as
its ordered add_test calls.  The partial-path list the source computes first
is never used by this function and has no effect, so it is omitted. -/
def ipPathTestCalls (i : GenInput) : List (String × String) :=
  let pl := (i.pathLabel).getD ""
  (i.pathSegments.filterMap (fun seg =>
    if strContains seg "." then none
    else some (i.baseUrl ++ "/" ++ seg, "IP-Path-Segment: " ++ seg))) ++
  (i.pathSegments.filterMap (fun seg =>
    if strContains seg "." then none
    else some (i.baseUrl ++ "/" ++ pl ++ "/" ++ seg, "IP-Path-Current-Path: /" ++ seg))) ++
  ((pathLevels i.pathSegments pl).flatMap (fun lv =>
    (COMMON_IP_PATH_TESTS.map (fun t =>
      (i.baseUrl ++ "/" ++ lv ++ "/" ++ t, "IP-Path-Common: /" ++ lv ++ "/" ++ t))) ++
    [(i.baseUrl ++ "/" ++ lv ++ "/" ++ i.hostname, "IP-Path-Self: /" ++ lv ++ "/" ++ i.hostname)] ++
    (COMMON_PORTS.map (fun port =>
      (i.baseUrl ++ "/" ++ lv ++ "/" ++ port, "IP-Path-Port: /" ++ lv ++ "/" ++ port))))) ++
  (if i.pathSegments = [] then
    COMMON_IP_PATH_TESTS.map (fun t => (i.baseUrl ++ "/" ++ t, "IP-Root-Common: /" ++ t))
   else [])

/-! ## Brute-force generation (url_utils._generate_brute_force_tests) -/

/-- The word filter applied before brute-force expansion on IP hosts
(url_utils.py lines 466 to 472): leading dot, an embedded dot-env followed
by another dot, or an embedded dot-git. -/
def ipAmbiguousWord (w : String) : Bool :=
  pyStartsWith w "." || strContains w ".env." || strContains w ".git"

/-- The backup word list after the IP filter of _generate_brute_force_tests. -/
def GenInput.filteredBackupWords (i : GenInput) : List String :=
  if isIpAddress i.hostname then i.backupWords.filter (fun w => !(ipAmbiguousWord w))
  else i.backupWords

/-- The extension test of _generate_brute_force_tests: the word contains a
dot and its final dot-separated piece is a two-to-five character
alphanumeric extension. -/
def wordHasExtension (w : String) : Bool :=
  if strContains w "." then
    let parts := pySplit w "."
    parts.length ≥ 2 && (parts.getLastD "").length ≥ 2
      && (parts.getLastD "").length ≤ 5 && pyIsAlnum (parts.getLastD "")
  else false

/-- The intermediate path levels the recursive brute force walks
(url_utils.py lines 512 to 522): accumulated prefixes of all but the last
segment. -/
def recLevelPaths (segments : List String) : List String :=
  (segments.dropLast.foldl (fun (acc : String × List String) s =>
    let cur := if acc.1 = "" then s else acc.1 ++ "/" ++ s
    (cur, acc.2 ++ [cur])) ("", [])).2

/-- Model of url_utils._generate_brute_force_tests, as its ordered add_test
calls. -/
def bruteForceCalls (i : GenInput) : List (String × String) :=
  let filtered := i.filteredBackupWords
  let wordsWithExtensions := filtered.filter wordHasExtension
  let wordsWithoutExtensions := filtered.filter (fun w => !(wordHasExtension w))
  let ordered := wordsWithExtensions ++ wordsWithoutExtensions
  let leafBase := match i.pathLabel with
    | some pl => i.baseUrl ++ "/" ++ pl
    | none => i.baseUrl
  (ordered.map (fun w => (leafBase ++ "/" ++ w, "Brute Force: " ++ w))) ++
  (if i.bruteRecursive ∧ i.pathSegments ≠ [] then
    let levels := i.baseUrl :: (recLevelPaths i.pathSegments).map (fun c => i.baseUrl ++ "/" ++ c)
    levels.flatMap (fun lv =>
      ordered.map (fun w => (lv ++ "/" ++ w, "Brute Force Recursive: " ++ w)))
   else [])

/-! ## The deduplicating collector and the task schedule -/

/-- The shared state of generate_test_urls: the tests list and the
added_urls set (modelled as the insertion-ordered list of its elements). -/
structure GenState where
  tests : List (String × String)
  added : List String
deriving DecidableEq

/-- Model of the add_test closure of generate_test_urls: record the pair
only if its URL was not seen before. -/
def addTest (st : GenState) (p : String × String) : GenState :=
  if p.1 ∈ st.added then st
  else { tests := st.tests ++ [p], added := st.added ++ [p.1] }

/-- The four generator tasks generate_test_urls can submit to its pool. -/
inductive GenTask where
  | baseT
  | domainT
  | leftoverT
  | pathT
  | ipPathT
deriving DecidableEq

/-- The add_test calls a given task performs. -/
def taskCalls (i : GenInput) : GenTask → List (String × String)
  | GenTask.baseT => baseTestCalls i
  | GenTask.domainT => domainTestCalls i
  | GenTask.leftoverT => leftoverTestCalls i
  | GenTask.pathT => match i.pathLabel with
    | some _ => pathTestCalls i
    | none => []
  | GenTask.ipPathT => match i.pathLabel with
    | some _ => ipPathTestCalls i
    | none => []

/-- The task list generate_test_urls submits (url_utils.py lines 118 to
137): base tests always, domain tests unless the host is an IP literal,
leftover tests always, and path tests (the IP variant for IP literals) when
the target has a path. -/
def scheduledGenTasks (i : GenInput) : List GenTask :=
  [GenTask.baseT] ++
  (if isIpAddress i.hostname then [] else [GenTask.domainT]) ++
  [GenTask.leftoverT] ++
  (match i.pathLabel with
   | some _ => if isIpAddress i.hostname then [GenTask.ipPathT] else [GenTask.pathT]
   | none => [])

/-- All add_test calls of the parallel phase, in task-submission order. -/
def parallelCalls (i : GenInput) : List (String × String) :=
  (scheduledGenTasks i).flatMap (taskCalls i)

/-- Run generate_test_urls with a given interleaving of the parallel-phase
add_test calls (the thread pool makes that order scheduler-dependent),
followed by the sequential brute-force phase. -/
def runGenerateWith (i : GenInput) (parallelPhase : List (String × String)) : GenState :=
  let st := parallelPhase.foldl addTest { tests := [], added := [] }
  if i.bruteMode ∧ i.backupWords ≠ [] then (bruteForceCalls i).foldl addTest st
  else st

/-- Model of url_utils.generate_test_urls with the tasks executing in
submission order (one representative schedule). -/
def generate_test_urls (i : GenInput) : GenState :=
  runGenerateWith i (parallelCalls i)

/-! ## HTTP transport (src/utils/http_utils.py)

HttpClient.get is modelled against an oracle giving the outcome of each
network primitive it may invoke (the HEAD probe, the plain GET, the ranged
GET and the streamed fallback GET).  Each outcome is either a response or a
raised requests exception; the exception constructors mirror the exception
classes the except clauses of the source dispatch on.  The model of get is
a total function: the try/except structure of the source is reproduced by
Except values that are always caught and converted to the error fields of
the returned dictionary, which is how the source guarantees it never
raises. -/

/-- A requests response as far as HttpClient.get consumes it. -/
structure RespRec where
  status_code : Nat
  headers : List (String × String)
  content : List Nat
deriving DecidableEq

/-- The exception classes distinguished by the except clauses of
HttpClient.get.  timeout, sslError, connError and reqError model
requests.exceptions.RequestException and its subclasses; otherExn models
any other exception. -/
inductive PyExn where
  | timeout
  | sslError
  | connError
  | reqError (msg : String)
  | otherExn (msg : String)
deriving DecidableEq

/-- Whether the exception is a requests.exceptions.RequestException (the
class the inner HEAD try/except swallows). -/
def PyExn.isRequestExn : PyExn → Bool
  | PyExn.otherExn _ => false
  | _ => true

/-- Python str of the exception, used in composed error messages. -/
def PyExn.message : PyExn → String
  | PyExn.timeout => "timed out"
  | PyExn.sslError => "ssl error"
  | PyExn.connError => "connection error"
  | PyExn.reqError m => m
  | PyExn.otherExn m => m

/-- The outcomes of the network primitives one call of HttpClient.get may
perform. -/
structure NetOracle where
  headOutcome : Except PyExn RespRec
  getOutcome : Except PyExn RespRec
  rangeGetOutcome : Except PyExn RespRec
  fallbackGetOutcome : Except PyExn RespRec

/-- The result dictionary of HttpClient.get.  The wall-clock time field is
carried but not modelled (always zero for fresh results). -/
structure GetResult where
  success : Bool
  response : Option RespRec
  error : Option String
  time : ℚ := 0
  large_file : Bool := false
  truncated : Bool := false
deriving DecidableEq

/-- A cache entry as HttpClient.get stores it: the lightweight fields only,
never the body. -/
structure CachedEntry where
  success : Bool
  error : Option String
  time : ℚ
  status_code : Nat
  headers : List (String × String)
deriving DecidableEq

/-- The large_file_extensions set of _check_if_likely_large_file. -/
def largeFileExtensions : List String :=
  [".jpg", ".jpeg", ".png", ".gif", ".bmp", ".tiff", ".webp",
   ".mp3", ".mp4", ".avi", ".mov", ".wmv", ".flv", ".mkv",
   ".wav", ".ogg", ".webm",
   ".zip", ".rar", ".tar", ".gz", ".7z", ".bz2", ".tgz",
   ".pdf", ".doc", ".docx", ".ppt", ".pptx", ".xls", ".xlsx",
   ".csv", ".odt", ".ods", ".odp",
   ".exe", ".dll", ".bin", ".iso", ".dmg", ".apk",
   ".mdb", ".accdb", ".db", ".sqlite", ".bak"]

/-- Model of HttpClient._check_if_likely_large_file. -/
def checkIfLikelyLargeFile (url : String) : Bool :=
  largeFileExtensions.any (fun e => pyEndsWith (lowerStr url) e)

/-- The _large_content_types set of the HttpClient constructor. -/
def largeContentTypes : List String :=
  ["application/pdf",
   "application/zip", "application/x-rar-compressed",
   "application/octet-stream",
   "application/x-msdownload",
   "application/x-executable",
   "application/vnd.ms-excel",
   "application/vnd.openxmlformats-officedocument.spreadsheetml.sheet",
   "application/msword",
   "application/vnd.openxmlformats-officedocument.wordprocessingml.document",
   "application/vnd.ms-powerpoint",
   "application/vnd.openxmlformats-officedocument.presentationml.presentation",
   "image/jpeg", "image/png", "image/gif", "image/tiff",
   "video/mp4", "video/mpeg", "video/quicktime", "audio/mpeg"]

/-- Case-exact header lookup on the modelled header association list. -/
def headerGet (headers : List (String × String)) (key : String) : Option String :=
  (headers.find? (fun p => p.1 == key)).map Prod.snd

/-- The any large-content-type substring test of HttpClient.get. -/
def anyLargeContentType (contentType : String) : Bool :=
  largeContentTypes.any (fun t => strContains (lowerStr contentType) t)

/-- MAX_FILE_SIZE_MB times 1024 times 1024 from app_settings.py. -/
def maxFileSizeBytes : Int := 10 * 1024 * 1024

/-- The is_large decision of HttpClient.get (lines 321 to 338) given a HEAD
response: Content-Length when parseable, else the content-type set, with
the URL-extension guess as a final promotion. -/
def computeIsLarge (headResp : RespRec) (likelyLargeFile : Bool) : Bool :=
  let contentLength := headerGet headResp.headers "Content-Length"
  let contentType := (headerGet headResp.headers "Content-Type").getD ""
  let isLarge0 :=
    match contentLength with
    | some s =>
      if s ≠ "" then
        match pyParseInt s with
        | some n => decide (n > maxFileSizeBytes)
        | none => anyLargeContentType contentType
      else anyLargeContentType contentType
    | none => anyLargeContentType contentType
  if isLarge0 then true else likelyLargeFile

/-- The header copy-over of the large-file branch (lines 367 to 371): HEAD
headers that the ranged response lacks are added to it. -/
def mergeHeadHeaders (headHeaders respHeaders : List (String × String)) :
    List (String × String) :=
  ["Content-Length", "Content-Type", "Last-Modified", "ETag"].foldl
    (fun acc k =>
      match headerGet headHeaders k with
      | some v => if (headerGet acc k).isSome then acc else acc ++ [(k, v)]
      | none => acc)
    respHeaders

/-- The large-file branch of the outer try of HttpClient.get (lines 344 to
408): a ranged GET, falling back to a limited streamed GET, every exception
caught locally; on the double failure the error field carries the composed
partial-content message and success stays false. -/
def largeFileFetch (o : NetOracle) (headResp : Option RespRec) : GetResult :=
  match o.rangeGetOutcome with
  | Except.ok resp =>
    let contentLengthTruthy : Bool :=
      match headResp with
      | some hr => ((headerGet hr.headers "Content-Length").getD "") != ""
      | none => false
    let mergedHeaders :=
      mergeHeadHeaders (((headResp.map RespRec.headers)).getD []) resp.headers
    let resp' :=
      if contentLengthTruthy then { resp with headers := mergedHeaders } else resp
    { success := true, response := some resp', error := none,
      large_file := true, truncated := true }
  | Except.error _ =>
    match o.fallbackGetOutcome with
    | Except.ok resp2 =>
      { success := true, response := some resp2, error := none,
        large_file := true, truncated := true }
    | Except.error e2 =>
      { success := false, response := none,
        error := some ("Failed to fetch partial content: " ++ e2.message) }

/-- The plain GET of the non-large branch (lines 410 to 418); its
exceptions propagate to the outer except chain. -/
def plainFetch (o : NetOracle) : Except PyExn GetResult :=
  match o.getOutcome with
  | Except.ok resp =>
    Except.ok { success := true, response := some resp, error := none }
  | Except.error e => Except.error e

/-- The body of the outer try of HttpClient.get: the HEAD probe (its
requests exceptions swallowed, anything else propagating), the is_large
decision, then the large-file branch or the plain GET.  An uncaught
exception propagates as the Except error and is mapped by the outer except
chain. -/
def attemptGet (o : NetOracle) (url : String) : Except PyExn GetResult :=
  match o.headOutcome with
  | Except.ok hr =>
    if computeIsLarge hr (checkIfLikelyLargeFile url) then
      Except.ok (largeFileFetch o (some hr))
    else plainFetch o
  | Except.error e =>
    if e.isRequestExn then
      if checkIfLikelyLargeFile url then Except.ok (largeFileFetch o none)
      else plainFetch o
    else Except.error e

/-- The outer except chain of HttpClient.get (lines 420 to 429). -/
def mapExnToResult : PyExn → GetResult
  | PyExn.timeout =>
    { success := false, response := none, error := some "Request timed out" }
  | PyExn.sslError =>
    { success := false, response := none, error := some "SSL verification failed" }
  | PyExn.connError =>
    { success := false, response := none, error := some "Connection error" }
  | PyExn.reqError m =>
    { success := false, response := none, error := some ("Request error: " ++ m) }
  | PyExn.otherExn m =>
    { success := false, response := none, error := some ("Unexpected error: " ++ m) }

/-! ### The LRU cache (http_utils.LRUCache over an OrderedDict) -/

/-- Model of LRUCache.get: a present key is moved to the most-recent end
(the tail of the list) and returned.  The front of the list is the least
recently used entry. -/
def lruGet {α : Type} (cache : List (String × α)) (key : String) :
    Option α × List (String × α) :=
  match cache.find? (fun p => p.1 == key) with
  | some p => (some p.2, cache.filter (fun q => q.1 != key) ++ [(key, p.2)])
  | none => (none, cache)

/-- Model of LRUCache.put: an existing key is re-valued at the
most-recent end; a new key evicts the front entry first when the cache is
full. -/
def lruPut {α : Type} (maxSize : Nat) (cache : List (String × α)) (key : String)
    (value : α) : List (String × α) :=
  if (cache.find? (fun p => p.1 == key)).isSome then
    cache.filter (fun q => q.1 != key) ++ [(key, value)]
  else if cache.length ≥ maxSize then
    cache.drop 1 ++ [(key, value)]
  else
    cache ++ [(key, value)]

/-- The configuration fields of HttpClient that get consults. -/
structure HttpClientCfg where
  useCache : Bool
  maxCacheSize : Nat
deriving DecidableEq

/-- Replaying a cached entry (lines 269 to 282): a successful entry is
rebuilt as a mock response with empty content; the stored failure branch is
replayed verbatim (it is unreachable because only successes are stored). -/
def cachedToGetResult (e : CachedEntry) : GetResult :=
  if e.success then
    { success := true,
      response := some { status_code := e.status_code, headers := e.headers, content := [] },
      error := e.error, time := e.time }
  else
    { success := false, response := none, error := e.error, time := e.time }

/-- The lightweight cache entry stored after a successful request (lines
434 to 445). -/
def mkCachedEntry (r : GetResult) : CachedEntry :=
  { success := r.success,
    error := r.error,
    time := r.time,
    status_code := ((r.response.map RespRec.status_code)).getD 0,
    headers := ((r.response.map RespRec.headers)).getD [] }

/-- The result dictionary of one real network attempt: the body of the
outer try with the outer except chain wrapped around it. -/
def fetchResult (o : NetOracle) (url : String) : GetResult :=
  match attemptGet o url with
  | Except.ok r => r
  | Except.error e => mapExnToResult e

/-- The whole network path of HttpClient.get: perform the request and cache
the lightweight entry when it succeeded and caching is on.  The final
component records that a real network request was performed. -/
def networkFetch (cfg : HttpClientCfg) (cache : List (String × CachedEntry))
    (o : NetOracle) (url : String) :
    GetResult × List (String × CachedEntry) × Bool :=
  (fetchResult o url,
   if cfg.useCache ∧ (fetchResult o url).success then
     lruPut cfg.maxCacheSize cache url (mkCachedEntry (fetchResult o url))
   else cache,
   true)

/-- Model of HttpClient.get.  Returns the result dictionary, the cache
after the call, and whether a real network request was performed. -/
def httpClientGet (cfg : HttpClientCfg) (cache : List (String × CachedEntry))
    (o : NetOracle) (url : String) :
    GetResult × List (String × CachedEntry) × Bool :=
  if cfg.useCache then
    match lruGet cache url with
    | (some entry, cache') => (cachedToGetResult entry, cache', false)
    | (none, _) => networkFetch cfg cache o url
  else networkFetch cfg cache o url

/-- A sequence of calls of HttpClient.get to the same URL, threading the
cache, as in the repeated-GET scenario of the cache-correctness property. -/
def runCalls (cfg : HttpClientCfg) (cache : List (String × CachedEntry)) (url : String) :
    List NetOracle → List (GetResult × Bool) × List (String × CachedEntry)
  | [] => ([], cache)
  | o :: os =>
    let step := httpClientGet cfg cache o url
    let rest := runCalls cfg step.2.1 url os
    ((step.1, step.2.2) :: rest.1, rest.2)

/-! ## Helper lemmas -/

theorem ne_empty_of_length_pos {s : String} (h : 0 < s.length) : s ≠ "" := by
  intro he
  rw [he] at h
  exact absurd h (by decide)

theorem append_ne_empty {a : String} (b : String) (h : 0 < a.length) : a ++ b ≠ "" := by
  apply ne_empty_of_length_pos
  rw [String.length_append]
  omega

theorem append3_ne_empty {a : String} (x b : String) (h : 0 < a.length) :
    a ++ x ++ b ≠ "" := by
  apply append_ne_empty
  rw [String.length_append]
  omega

/-- A well-behaved early-return check: whenever it fires with a positive
classification, the reason is nonempty. -/
def StepOk (o : Option (Bool × String)) : Prop :=
  ∀ p : Bool × String, o = some p → p.1 = true → p.2 ≠ ""

/-- A check all of whose firings are positive classifications. -/
def StepTrue (o : Option (Bool × String)) : Prop :=
  ∀ p : Bool × String, o = some p → p.1 = true

theorem firstSome_reason (l : List (Option (Bool × String)))
    (h : ∀ o ∈ l, StepOk o) :
    (firstSome l).1 = true → (firstSome l).2 ≠ "" := by
  induction l with
  | nil => intro hf; exact absurd hf (by simp [firstSome])
  | cons o rest ih =>
    match o with
    | some p =>
      intro hf
      exact h (some p) (by simp) p rfl (by simpa [firstSome] using hf)
    | none =>
      intro hf
      have hrest : ∀ o ∈ rest, StepOk o := fun o ho => h o (by simp [ho])
      simpa [firstSome] using ih hrest (by simpa [firstSome] using hf)

theorem firstSome_true_of (l1 l2 : List (Option (Bool × String))) (r : Bool × String)
    (hr : r.1 = true) (h : ∀ o ∈ l1, StepTrue o) :
    (firstSome (l1 ++ some r :: l2)).1 = true := by
  induction l1 with
  | nil => simpa [firstSome] using hr
  | cons o rest ih =>
    match o with
    | some p =>
      have := h (some p) (by simp) p rfl
      simpa [firstSome] using this
    | none =>
      have hrest : ∀ o ∈ rest, StepTrue o := fun o ho => h o (by simp [ho])
      simpa [firstSome] using ih hrest

theorem zeroLengthStep_ok (n : Nat) : StepOk (zeroLengthStep n) := by
  intro p hp ht
  unfold zeroLengthStep at hp
  split at hp
  · cases hp; simp at ht
  · cases hp

theorem pdfSignatureStep_ok (s : Nat) (ct url : String) (c : List Nat) :
    StepOk (pdfSignatureStep s ct url c) := by
  intro p hp ht
  unfold pdfSignatureStep at hp
  split at hp
  · cases hp; simp at ht
  · cases hp

theorem notFoundStep_true (s : Nat) : StepTrue (notFoundStep s) := by
  intro p hp
  unfold notFoundStep at hp
  split at hp
  · cases hp; rfl
  · cases hp

theorem notFoundStep_ok (s : Nat) : StepOk (notFoundStep s) := by
  intro p hp ht
  unfold notFoundStep at hp
  split at hp
  · cases hp; decide
  · cases hp

theorem hashMultiExtStep_true (urls : List String) : StepTrue (hashMultiExtStep urls) := by
  intro p hp
  unfold hashMultiExtStep at hp
  split at hp
  · split at hp
    · cases hp; rfl
    · cases hp
  · cases hp

theorem hashMultiExtStep_ok (urls : List String) : StepOk (hashMultiExtStep urls) := by
  intro p hp ht
  unfold hashMultiExtStep at hp
  split at hp
  · split at hp
    · cases hp
      exact append_ne_empty _ (by decide)
    · cases hp
  · cases hp

theorem sizeRepetitionStep_true (s : Nat) (ct : String) (len cnt : Nat) :
    StepTrue (sizeRepetitionStep s ct len cnt) := by
  intro p hp
  unfold sizeRepetitionStep at hp
  split at hp
  · split at hp
    · split at hp
      · cases hp; rfl
      · split at hp
        · cases hp; rfl
        · cases hp
    · cases hp; rfl
  · cases hp

theorem sizeRepetitionStep_ok (s : Nat) (ct : String) (len cnt : Nat) :
    StepOk (sizeRepetitionStep s ct len cnt) := by
  intro p hp ht
  unfold sizeRepetitionStep at hp
  split at hp
  · split at hp
    · split at hp
      · cases hp
        exact append3_ne_empty _ _ (by decide)
      · split at hp
        · cases hp
          exact append_ne_empty _ (by decide)
        · cases hp
    · cases hp
      exact append_ne_empty _ (by decide)
  · cases hp

theorem baselineHashStep_true (s : Nat) (h : String) (bl : List (Nat × List BaselineEntry)) :
    StepTrue (baselineHashStep s h bl) := by
  intro p hp
  unfold baselineHashStep at hp
  split at hp
  · split at hp
    · cases hp; rfl
    · cases hp
  · cases hp

theorem baselineHashStep_ok (s : Nat) (h : String) (bl : List (Nat × List BaselineEntry)) :
    StepOk (baselineHashStep s h bl) := by
  intro p hp ht
  unfold baselineHashStep at hp
  split at hp
  · split at hp
    · cases hp
      exact append3_ne_empty _ _ (by decide)
    · cases hp
  · cases hp

theorem baseline404Step_true (f : String → String → ℚ) (s : Nat) (t : String) (th : ℚ)
    (bl : List (Nat × List BaselineEntry)) : StepTrue (baseline404Step f s t th bl) := by
  intro p hp
  unfold baseline404Step at hp
  split at hp
  · split at hp
    · cases hp; rfl
    · cases hp
  · cases hp

theorem baseline404Step_ok (f : String → String → ℚ) (s : Nat) (t : String) (th : ℚ)
    (bl : List (Nat × List BaselineEntry)) : StepOk (baseline404Step f s t th bl) := by
  intro p hp ht
  unfold baseline404Step at hp
  split at hp
  · split at hp
    · cases hp
      exact append3_ne_empty _ _ (by decide)
    · cases hp
  · cases hp

theorem mainPageStep_true (f : String → String → ℚ) (s : Nat) (ct : String)
    (len : Nat) (h t : String) (mp : Option MainPage) :
    StepTrue (mainPageStep f s ct len h t mp) := by
  intro p hp
  unfold mainPageStep at hp
  match mp with
  | none => cases hp
  | some m =>
    simp only at hp
    split at hp
    · cases hp
    · split at hp
      · cases hp; rfl
      · split at hp
        · split at hp
          · split at hp
            · cases hp; rfl
            · split at hp
              · cases hp; rfl
              · cases hp
          · cases hp
        · cases hp

theorem mainPageStep_ok (f : String → String → ℚ) (s : Nat) (ct : String)
    (len : Nat) (h t : String) (mp : Option MainPage) :
    StepOk (mainPageStep f s ct len h t mp) := by
  intro p hp ht
  unfold mainPageStep at hp
  match mp with
  | none => cases hp
  | some m =>
    simp only at hp
    split at hp
    · cases hp
    · split at hp
      · cases hp; decide
      · split at hp
        · split at hp
          · split at hp
            · cases hp; decide
            · split at hp
              · cases hp
                exact append3_ne_empty _ _ (by decide)
              · cases hp
          · cases hp
        · cases hp

theorem binaryContentStep_ok (s : Nat) (ct : String) : StepOk (binaryContentStep s ct) := by
  intro p hp ht
  unfold binaryContentStep at hp
  split at hp
  · cases hp; simp at ht
  · cases hp

theorem spaFallbackStep_ok (d : List Nat → String) (s : Nat) (url : String) (c : List Nat) :
    StepOk (spaFallbackStep d s url c) := by
  intro p hp ht
  unfold spaFallbackStep at hp
  split at hp
  · split at hp
    · cases hp
      exact append_ne_empty _ (by decide)
    · cases hp
  · cases hp

theorem leftoverStep_ok (d : List Nat → String) (r : ScanResult) (c : List Nat) :
    StepOk (leftoverStep d r c) := by
  intro p hp ht
  unfold leftoverStep at hp
  split at hp
  · cases hp; simp at ht
  · cases hp

theorem stepTrue_none : StepTrue none := by
  intro p hp
  cases hp

theorem zeroLengthStep_none {n : Nat} (h : n ≠ 0) : zeroLengthStep n = none := by
  unfold zeroLengthStep
  rw [if_neg h]

theorem pdfSignatureStep_none_of_not_success {s : Nat} (ct url : String) (c : List Nat)
    (h : isSuccessStatus s = false) : pdfSignatureStep s ct url c = none := by
  unfold pdfSignatureStep
  rw [if_neg]
  simp [h]

theorem notFoundStep_none {s : Nat} (h : s ≠ 404) : notFoundStep s = none := by
  unfold notFoundStep
  rw [if_neg h]

/-!
## Claim C1

The claim says every HTTP 404 response is classified as a false positive
regardless of body content.  The code first short-circuits on a zero
content length (detection.py line 225) and only afterwards handles 404
(line 238), so an empty-bodied 404 is returned as not a false positive.
With a nonzero content length the claim holds: no check before the 404 fast
path can fire for a 404 (the PDF branch requires a success status).
-/

/-- C1 counterexample: an HTTP 404 response with an empty body (content
length zero) is classified is_false_positive = false, contradicting the
claim that every 404 is a false positive regardless of body content. -/
theorem http404_counterexample :
    check_false_positive (fun _ => "") (fun _ _ => 0) (fun _ => "")
      { url := "http://target.example/x", status_code := 404,
        content_type := "text/html", content_length := 0 }
      [] [] none (fun _ => 0) (fun _ => []) = (false, "") := by
  rfl

/-- C1 (amended): every response whose status code is 404 and whose
recorded content length is nonzero is classified as a false positive, with
the 404 fast-path reason, regardless of body bytes, content type, baseline
state, main page and frequency state. -/
theorem http404_amended (md5hex : List Nat → String) (seqSim : String → String → ℚ)
    (decodeUtf8 : List Nat → String) (result : ScanResult) (responseContent : List Nat)
    (baselineResponses : List (Nat × List BaselineEntry)) (mainPage : Option MainPage)
    (sizeFrequency : String → Nat) (hashFrequency : String → List String)
    (hstatus : result.status_code = 404) (hlen : result.content_length ≠ 0) :
    check_false_positive md5hex seqSim decodeUtf8 result responseContent
      baselineResponses mainPage sizeFrequency hashFrequency =
      (true, "404 responses are typically not residual files") := by
  have h1 := zeroLengthStep_none hlen
  have h2 : pdfSignatureStep result.status_code result.content_type result.url
      responseContent = none := by
    apply pdfSignatureStep_none_of_not_success
    rw [hstatus]
    rfl
  have h3 : notFoundStep result.status_code =
      some (true, "404 responses are typically not residual files") := by
    rw [hstatus]
    rfl
  unfold check_false_positive
  rw [h1, h2, h3]
  rfl

/-- C1 witness: the amended theorem applied at a concrete 404 response with
a nonempty body. -/
theorem http404_witness :
    check_false_positive (fun _ => "d41d8cd98f") (fun _ _ => 0) (fun _ => "")
      { url := "http://target.example/x", status_code := 404,
        content_type := "text/html", content_length := 3 }
      [104, 105, 33] [] none (fun _ => 0) (fun _ => []) =
      (true, "404 responses are typically not residual files") :=
  http404_amended (fun _ => "d41d8cd98f") (fun _ _ => 0) (fun _ => "")
    { url := "http://target.example/x", status_code := 404,
      content_type := "text/html", content_length := 3 }
    [104, 105, 33] [] none (fun _ => 0) (fun _ => []) rfl (by decide)

/-!
## Claim C2

The claim says the repetition check suppresses at three or more recurrences
of the (status, length, base content-type) triple, except that small HTML
pages with success status need five.  The source has it the other way
around (detection.py lines 277 to 289): for success statuses a small HTML
response (text/html, length below 2000) is suppressed already at three
recurrences, while every other success-status response needs five; error
statuses are suppressed at three.
-/

/-- C2 counterexample: a success-status small HTML response whose triple
has recurred three times (two earlier occurrences recorded, plus this one)
is already suppressed as a false positive, although the claim says such
pages require at least five recurrences before suppression. -/
theorem size_repetition_counterexample :
    (fun k => if k = "200:500:text/html" then 2 else 0 : String → Nat) "200:500:text/html" + 1 = 3
    ∧ check_false_positive (fun _ => "h") (fun _ _ => 0) (fun _ => "")
        { url := "http://target.example/a", status_code := 200,
          content_type := "text/html", content_length := 500 }
        (List.replicate 500 97) [] none
        (fun k => if k = "200:500:text/html" then 2 else 0) (fun _ => []) =
      (true, "Multiple identical small HTML responses with status 200 (likely custom error page)") := by
  constructor
  · rfl
  · rfl

/-- C2 (amended): for a response that reaches the repetition check (nonzero
length, no PDF short-circuit, not a 404, hash-frequency check silent) whose
triple count, this response included, has reached three: an error status is
suppressed at once; a success status is suppressed at three only when the
response is small HTML (text/html content type, length below 2000), and
otherwise needs a count of at least five. -/
theorem size_repetition_amended (md5hex : List Nat → String) (seqSim : String → String → ℚ)
    (decodeUtf8 : List Nat → String) (result : ScanResult) (responseContent : List Nat)
    (baselineResponses : List (Nat × List BaselineEntry)) (mainPage : Option MainPage)
    (sizeFrequency : String → Nat) (hashFrequency : String → List String)
    (hlen : result.content_length ≠ 0)
    (hpdf : pdfSignatureStep result.status_code result.content_type result.url
      responseContent = none)
    (h404 : result.status_code ≠ 404)
    (hhash : hashMultiExtStep (updatedHashUrls hashFrequency
      (calculate_content_hash md5hex responseContent) result.url) = none)
    (hcnt : sizeFrequency (sizeFrequencyKey result) + 1 ≥ 3) :
    (isSuccessStatus result.status_code = false →
      check_false_positive md5hex seqSim decodeUtf8 result responseContent
        baselineResponses mainPage sizeFrequency hashFrequency =
        (true, "Multiple identical responses with status " ++ toString result.status_code))
    ∧ (isSuccessStatus result.status_code = true →
        strContains (lowerStr result.content_type) "text/html" = true →
        result.content_length < 2000 →
        check_false_positive md5hex seqSim decodeUtf8 result responseContent
          baselineResponses mainPage sizeFrequency hashFrequency =
          (true, "Multiple identical small HTML responses with status " ++
            toString result.status_code ++ " (likely custom error page)"))
    ∧ (isSuccessStatus result.status_code = true →
        (strContains (lowerStr result.content_type) "text/html" && decide
          (result.content_length < 2000)) = false →
        sizeFrequency (sizeFrequencyKey result) + 1 ≥ 5 →
        check_false_positive md5hex seqSim decodeUtf8 result responseContent
          baselineResponses mainPage sizeFrequency hashFrequency =
          (true, "Multiple identical responses with status " ++ toString result.status_code)) := by
  have h1 := zeroLengthStep_none hlen
  have h3 := notFoundStep_none h404
  refine ⟨?_, ?_, ?_⟩
  · intro hsucc
    have h5 : sizeRepetitionStep result.status_code result.content_type
        result.content_length (sizeFrequency (sizeFrequencyKey result) + 1) =
        some (true, "Multiple identical responses with status " ++ toString result.status_code) := by
      unfold sizeRepetitionStep
      rw [if_pos hcnt, hsucc]
      simp
    unfold check_false_positive
    rw [h1, hpdf, h3, hhash, h5]
    rfl
  · intro hsucc hhtml hsmall
    have h5 : sizeRepetitionStep result.status_code result.content_type
        result.content_length (sizeFrequency (sizeFrequencyKey result) + 1) =
        some (true, "Multiple identical small HTML responses with status " ++
          toString result.status_code ++ " (likely custom error page)") := by
      unfold sizeRepetitionStep
      rw [if_pos hcnt, hsucc]
      simp [hhtml, hsmall]
    unfold check_false_positive
    rw [h1, hpdf, h3, hhash, h5]
    rfl
  · intro hsucc hnothtml hcnt5
    have h5 : sizeRepetitionStep result.status_code result.content_type
        result.content_length (sizeFrequency (sizeFrequencyKey result) + 1) =
        some (true, "Multiple identical responses with status " ++ toString result.status_code) := by
      unfold sizeRepetitionStep
      rw [if_pos hcnt, hsucc]
      simp only [if_true]
      rw [if_neg, if_pos hcnt5]
      simp [hnothtml]
    unfold check_false_positive
    rw [h1, hpdf, h3, hhash, h5]
    rfl

/-- C2 witness: the amended theorem applied at a concrete 500-status
response whose triple has recurred three times. -/
theorem size_repetition_witness :
    check_false_positive (fun _ => "h") (fun _ _ => 0) (fun _ => "")
      { url := "http://target.example/b", status_code := 500,
        content_type := "text/plain", content_length := 40 }
      (List.replicate 40 97) [] none
      (fun k => if k = "500:40:text/plain" then 2 else 0) (fun _ => []) =
      (true, "Multiple identical responses with status " ++ toString (500 : Nat)) :=
  (size_repetition_amended (fun _ => "h") (fun _ _ => 0) (fun _ => "")
    { url := "http://target.example/b", status_code := 500,
      content_type := "text/plain", content_length := 40 }
    (List.replicate 40 97) [] none
    (fun k => if k = "500:40:text/plain" then 2 else 0) (fun _ => [])
    (by decide) (by rfl) (by decide) (by rfl) (by decide)).1 (by rfl)

/-!
## Claim C3

The claim says an exact body-hash match with the main-page fingerprint is
always classified as a false positive, whatever the status code, except for
the recognized binary signature (PDF) case.  The zero-length short-circuit
(detection.py line 225) precedes the main-page comparison, so an empty body
whose (empty-content) hash equals an empty-content main-page hash is
returned as not a false positive.  Away from that case and the PDF branch
the claim holds: every check ordered before the main-page comparison either
falls through or itself returns a positive classification.
-/

theorem mainPageStep_hash_match (seqSim : String → String → ℚ) (s : Nat) (ct : String)
    (len : Nat) (h t : String) (mp : MainPage) (hne : h ≠ "") (heq : h = mp.hash) :
    mainPageStep seqSim s ct len h t (some mp) =
      some (true, "Response hash matches main page (SPA fallback or site returns same content)") := by
  unfold mainPageStep
  simp only
  rw [if_neg hne, if_pos heq]

/-- The main-page fingerprint of the C3 counterexample: its recorded hash
is the hash of an empty body. -/
def emptyHashMainPage : MainPage :=
  { size := 5, hash := "", status := 200, content_type := "text/html", text_content := "" }

/-- C3 counterexample: a success response with an empty body, against a
main page whose recorded content hash is that of an empty body (the empty
string, as calculate_content_hash returns for empty content).  The body
hash equals the main-page fingerprint hash and no binary signature is
involved, yet the classification is is_false_positive = false, because the
zero-length short-circuit precedes the main-page comparison. -/
theorem main_page_hash_counterexample :
    calculate_content_hash (fun _ => "x") [] = emptyHashMainPage.hash
    ∧ check_false_positive (fun _ => "x") (fun _ _ => 0) (fun _ => "")
        { url := "http://target.example/e", status_code := 200,
          content_type := "text/html", content_length := 0 }
        [] [] (some emptyHashMainPage)
        (fun _ => 0) (fun _ => []) = (false, "") := by
  exact ⟨rfl, rfl⟩

/-- C3 (amended): whenever a main-page fingerprint with a nonempty hash is
recorded, the response body hash equals it, the recorded content length is
nonzero and the PDF-signature branch does not fire, the classification is
is_false_positive = true, regardless of the status code and of all other
state. -/
theorem main_page_hash_amended (md5hex : List Nat → String) (seqSim : String → String → ℚ)
    (decodeUtf8 : List Nat → String) (result : ScanResult) (responseContent : List Nat)
    (baselineResponses : List (Nat × List BaselineEntry)) (mp : MainPage)
    (sizeFrequency : String → Nat) (hashFrequency : String → List String)
    (hhash : calculate_content_hash md5hex responseContent = mp.hash)
    (hne : mp.hash ≠ "")
    (hlen : result.content_length ≠ 0)
    (hpdf : pdfSignatureStep result.status_code result.content_type result.url
      responseContent = none) :
    (check_false_positive md5hex seqSim decodeUtf8 result responseContent
      baselineResponses (some mp) sizeFrequency hashFrequency).1 = true := by
  have h1 := zeroLengthStep_none hlen
  have h8 := mainPageStep_hash_match seqSim result.status_code result.content_type
    result.content_length (calculate_content_hash md5hex responseContent)
    (classifierTextContent decodeUtf8 result responseContent) mp
    (by rw [hhash]; exact hne) hhash
  unfold check_false_positive
  rw [h1, hpdf, h8]
  have := firstSome_true_of
    [none, none,
     notFoundStep result.status_code,
     hashMultiExtStep (updatedHashUrls hashFrequency
       (calculate_content_hash md5hex responseContent) result.url),
     sizeRepetitionStep result.status_code result.content_type result.content_length
       (sizeFrequency (sizeFrequencyKey result) + 1),
     baselineHashStep result.status_code (calculate_content_hash md5hex responseContent)
       baselineResponses,
     baseline404Step seqSim result.status_code
       (classifierTextContent decodeUtf8 result responseContent)
       (classifierThreshold result.status_code) baselineResponses]
    [binaryContentStep result.status_code result.content_type,
     spaFallbackStep decodeUtf8 result.status_code result.url responseContent,
     leftoverStep decodeUtf8 result responseContent]
    (true, "Response hash matches main page (SPA fallback or site returns same content)")
    rfl ?_
  · exact this
  · intro o ho
    simp only [List.mem_cons, List.not_mem_nil, or_false] at ho
    rcases ho with h|h|h|h|h|h|h <;> subst h
    · exact stepTrue_none
    · exact stepTrue_none
    · exact notFoundStep_true _
    · exact hashMultiExtStep_true _
    · exact sizeRepetitionStep_true _ _ _ _
    · exact baselineHashStep_true _ _ _
    · exact baseline404Step_true _ _ _ _ _

/-- The main-page fingerprint used by the C3 witness. -/
def deadbeefMainPage : MainPage :=
  { size := 2, hash := "deadbeef", status := 200, content_type := "text/html",
    text_content := "" }

/-- C3 witness: the amended theorem applied at a concrete 403 response
whose body hash matches the recorded main page hash. -/
theorem main_page_hash_witness :
    (check_false_positive (fun _ => "deadbeef") (fun _ _ => 0) (fun _ => "")
      { url := "http://target.example/w", status_code := 403,
        content_type := "text/html", content_length := 2 }
      [104, 105] [] (some deadbeefMainPage)
      (fun _ => 0) (fun _ => [])).1 = true :=
  main_page_hash_amended (fun _ => "deadbeef") (fun _ _ => 0) (fun _ => "")
    { url := "http://target.example/w", status_code := 403,
      content_type := "text/html", content_length := 2 }
    [104, 105] [] deadbeefMainPage
    (fun _ => 0) (fun _ => []) rfl (by decide) (by decide) (by rfl)

/-!
## Claim C4

Wherever the code sets false_positive to true the accompanying reason is
nonempty: every positive early return of check_false_positive carries a
reason string with a nonempty literal head, and mark_as_false_positive
copies its reason argument verbatim (the scanner assigns the classifier
tuple directly; mark_as_false_positive has no caller in the repository, so
every reason it would receive is covered by the nonemptiness hypothesis).
-/

/-- C4: the classifier never returns is_false_positive = true with an empty
reason, and mark_as_false_positive sets false_positive = true while storing
the given nonempty reason. -/
theorem false_positive_reason_invariant :
    (∀ (md5hex : List Nat → String) (seqSim : String → String → ℚ)
       (decodeUtf8 : List Nat → String) (result : ScanResult)
       (responseContent : List Nat)
       (baselineResponses : List (Nat × List BaselineEntry)) (mainPage : Option MainPage)
       (sizeFrequency : String → Nat) (hashFrequency : String → List String),
       (check_false_positive md5hex seqSim decodeUtf8 result responseContent
         baselineResponses mainPage sizeFrequency hashFrequency).1 = true →
       (check_false_positive md5hex seqSim decodeUtf8 result responseContent
         baselineResponses mainPage sizeFrequency hashFrequency).2 ≠ "")
    ∧ (∀ (r : ScanResult) (reason : String), reason ≠ "" →
       (r.markAsFalsePositive reason).false_positive = true ∧
       (r.markAsFalsePositive reason).false_positive_reason ≠ "") := by
  constructor
  · intro md5hex seqSim decodeUtf8 result responseContent bl mp szf hf
    unfold check_false_positive
    apply firstSome_reason
    intro o ho
    simp only [List.mem_cons, List.not_mem_nil, or_false] at ho
    rcases ho with h|h|h|h|h|h|h|h|h|h|h <;> subst h
    · exact zeroLengthStep_ok _
    · exact pdfSignatureStep_ok _ _ _ _
    · exact notFoundStep_ok _
    · exact hashMultiExtStep_ok _
    · exact sizeRepetitionStep_ok _ _ _ _
    · exact baselineHashStep_ok _ _ _
    · exact baseline404Step_ok _ _ _ _ _
    · exact mainPageStep_ok _ _ _ _ _ _ _
    · exact binaryContentStep_ok _ _
    · exact spaFallbackStep_ok _ _ _ _
    · exact leftoverStep_ok _ _ _
  · intro r reason hne
    exact ⟨rfl, hne⟩

/-- C4 witness: both halves of the invariant applied at concrete inputs: a
404 classification (whose tuple the scanner assigns verbatim), and a direct
mark_as_false_positive call with a nonempty reason. -/
theorem false_positive_reason_invariant_witness :
    (check_false_positive (fun _ => "h") (fun _ _ => 0) (fun _ => "")
      { url := "http://target.example/c4", status_code := 404,
        content_type := "text/plain", content_length := 9 }
      [97, 98, 99] [] none (fun _ => 0) (fun _ => [])).2 ≠ ""
    ∧ (ScanResult.markAsFalsePositive
        { url := "http://target.example/c4", status_code := 200,
          content_type := "text/plain", content_length := 9 }
        "Detected SPA fallback: markers").false_positive = true :=
  ⟨false_positive_reason_invariant.1 (fun _ => "h") (fun _ _ => 0) (fun _ => "")
    { url := "http://target.example/c4", status_code := 404,
      content_type := "text/plain", content_length := 9 }
    [97, 98, 99] [] none (fun _ => 0) (fun _ => []) (by rfl),
   (false_positive_reason_invariant.2
    { url := "http://target.example/c4", status_code := 200,
      content_type := "text/plain", content_length := 9 }
    "Detected SPA fallback: markers" (by decide)).1⟩

/-!
## Claim C10

calculate_content_hash returns the empty string on empty content, the md5
digest of the whole body up to 102400 bytes (100 KB), and beyond that the
md5 digest of the first 4096 bytes concatenated with the last 4096 bytes;
consequently any two large bodies agreeing on those two windows share the
hash, and therefore agree on every hash-based classifier comparison (the
classifier consumes the body through calculate_content_hash in the
hash-frequency, baseline-hash and main-page-hash checks).
-/

theorem calculate_content_hash_small (md5hex : List Nat → String) (content : List Nat)
    (hne : content ≠ []) (hle : content.length ≤ 102400) :
    calculate_content_hash md5hex content = md5hex content := by
  unfold calculate_content_hash
  rw [if_neg hne, if_neg (by omega)]

theorem calculate_content_hash_large (md5hex : List Nat → String) (content : List Nat)
    (hgt : 102400 < content.length) :
    calculate_content_hash md5hex content =
      md5hex (content.take 4096 ++ content.drop (content.length - 4096)) := by
  have hne : content ≠ [] := by
    intro h
    rw [h] at hgt
    simp at hgt
  unfold calculate_content_hash
  rw [if_neg hne, if_pos (by omega)]

/-- C10: the three regimes of calculate_content_hash, and the collision
consequence for large bodies that agree on their first and last 4096
bytes.  The md5 digest itself is universally quantified, since it is the
external hashlib primitive. -/
theorem content_hash_spec :
    (∀ md5hex : List Nat → String, calculate_content_hash md5hex [] = "")
    ∧ (∀ (md5hex : List Nat → String) (content : List Nat), content ≠ [] →
        content.length ≤ 102400 →
        calculate_content_hash md5hex content = md5hex content)
    ∧ (∀ (md5hex : List Nat → String) (content : List Nat), 102400 < content.length →
        calculate_content_hash md5hex content =
          md5hex (content.take 4096 ++ content.drop (content.length - 4096)))
    ∧ (∀ (md5hex : List Nat → String) (c1 c2 : List Nat),
        102400 < c1.length → 102400 < c2.length →
        c1.take 4096 = c2.take 4096 →
        c1.drop (c1.length - 4096) = c2.drop (c2.length - 4096) →
        calculate_content_hash md5hex c1 = calculate_content_hash md5hex c2) := by
  refine ⟨?_, ?_, ?_, ?_⟩
  · intro md5hex
    rfl
  · intro md5hex content hne hle
    exact calculate_content_hash_small md5hex content hne hle
  · intro md5hex content hgt
    exact calculate_content_hash_large md5hex content hgt
  · intro md5hex c1 c2 h1 h2 htake hdrop
    rw [calculate_content_hash_large md5hex c1 h1,
        calculate_content_hash_large md5hex c2 h2, htake, hdrop]

/-- C10 witness: the large-body regime applied to two distinct bodies of
102401 and 102402 zero bytes, which agree on their first and last 4096
bytes and therefore receive the same hash. -/
theorem content_hash_spec_witness :
    calculate_content_hash (fun l => toString l.length) (List.replicate 102401 0) =
      calculate_content_hash (fun l => toString l.length) (List.replicate 102402 0) :=
  content_hash_spec.2.2.2 (fun l => toString l.length)
    (List.replicate 102401 0) (List.replicate 102402 0)
    (by rw [List.length_replicate]; norm_num)
    (by rw [List.length_replicate]; norm_num)
    (by rw [List.take_replicate, List.take_replicate]
        norm_num [Nat.min_def])
    (by rw [List.drop_replicate, List.drop_replicate, List.length_replicate,
          List.length_replicate])

/-!
## Claim C5

HttpClient.get never raises and surfaces every failure as success = false
with a typed error string.  In the model the body of the outer try is an
Except value (attemptGet) whose error constructor is always consumed by the
except chain (mapExnToResult), so httpClientGet is a total function — the
never-raises half of the claim.  The typed-error half: a failing result
carries one of the messages of the except chain, or the composed
partial-content failure message of the large-file fallback path.
-/

/-- The error-string taxonomy of HttpClient.get: the four messages of the
outer except chain for requests exceptions, the unexpected-exception
message, and the composed message of the large-file double-failure path. -/
def errorIsTyped (m : String) : Prop :=
  m = "Request timed out" ∨ m = "SSL verification failed" ∨ m = "Connection error" ∨
  (∃ s, m = "Request error: " ++ s) ∨ (∃ s, m = "Unexpected error: " ++ s) ∨
  (∃ s, m = "Failed to fetch partial content: " ++ s)

theorem mapExnToResult_typed (e : PyExn) :
    (mapExnToResult e).success = false ∧
    ∃ m, (mapExnToResult e).error = some m ∧ errorIsTyped m := by
  cases e with
  | timeout => exact ⟨rfl, "Request timed out", rfl, Or.inl rfl⟩
  | sslError => exact ⟨rfl, "SSL verification failed", rfl, Or.inr (Or.inl rfl)⟩
  | connError => exact ⟨rfl, "Connection error", rfl, Or.inr (Or.inr (Or.inl rfl))⟩
  | reqError m =>
    exact ⟨rfl, "Request error: " ++ m, rfl, Or.inr (Or.inr (Or.inr (Or.inl ⟨m, rfl⟩)))⟩
  | otherExn m =>
    exact ⟨rfl, "Unexpected error: " ++ m, rfl,
      Or.inr (Or.inr (Or.inr (Or.inr (Or.inl ⟨m, rfl⟩))))⟩

theorem largeFileFetch_typed (o : NetOracle) (headResp : Option RespRec)
    (hf : (largeFileFetch o headResp).success = false) :
    ∃ m, (largeFileFetch o headResp).error = some m ∧ errorIsTyped m := by
  cases hr : o.rangeGetOutcome with
  | ok resp =>
    simp only [largeFileFetch, hr] at hf
    exact Bool.noConfusion hf
  | error e =>
    cases hb : o.fallbackGetOutcome with
    | ok resp2 =>
      simp only [largeFileFetch, hr, hb] at hf
      exact Bool.noConfusion hf
    | error e2 =>
      simp only [largeFileFetch, hr, hb]
      exact ⟨_, rfl, Or.inr (Or.inr (Or.inr (Or.inr (Or.inr ⟨_, rfl⟩))))⟩

theorem plainFetch_ok_success (o : NetOracle) (r : GetResult)
    (h : plainFetch o = Except.ok r) : r.success = true := by
  unfold plainFetch at h
  split at h
  · cases h
    rfl
  · cases h

theorem attemptGet_ok_typed (o : NetOracle) (url : String) (r : GetResult)
    (h : attemptGet o url = Except.ok r) (hf : r.success = false) :
    ∃ m, r.error = some m ∧ errorIsTyped m := by
  unfold attemptGet at h
  split at h
  · rename_i hr
    split at h
    · cases h
      exact largeFileFetch_typed o _ hf
    · rw [plainFetch_ok_success o r h] at hf
      cases hf
  · rename_i e
    split at h
    · split at h
      · cases h
        exact largeFileFetch_typed o _ hf
      · rw [plainFetch_ok_success o r h] at hf
        cases hf
    · cases h

theorem fetchResult_typed (o : NetOracle) (url : String)
    (hf : (fetchResult o url).success = false) :
    ∃ m, (fetchResult o url).error = some m ∧ errorIsTyped m := by
  unfold fetchResult at hf ⊢
  cases ha : attemptGet o url with
  | ok r =>
    rw [ha] at hf
    exact attemptGet_ok_typed o url r ha hf
  | error e =>
    rw [ha] at hf
    exact (mapExnToResult_typed e).2

/-- An entry returned by a cache hit is the stored value of some pair of
the cache list. -/
theorem lruGet_hit_mem {α : Type} (cache : List (String × α)) (url : String)
    (entry : α) (cache' : List (String × α))
    (h : lruGet cache url = (some entry, cache')) :
    ∃ k, (k, entry) ∈ cache := by
  unfold lruGet at h
  split at h
  · rename_i p hfind
    have hmem := List.mem_of_find?_eq_some hfind
    cases h
    exact ⟨p.1, hmem⟩
  · cases h

/-- C5: for every cache state holding only successful entries (the only
entries the code ever stores), every oracle outcome and every URL, a
failing result of HttpClient.get carries a typed error message; and the
function is total by construction, so no outcome raises. -/
theorem httpGet_failures_typed (cfg : HttpClientCfg) (cache : List (String × CachedEntry))
    (o : NetOracle) (url : String)
    (hwf : ∀ p ∈ cache, p.2.success = true) :
    (httpClientGet cfg cache o url).1.success = false →
    ∃ m, (httpClientGet cfg cache o url).1.error = some m ∧ errorIsTyped m := by
  unfold httpClientGet
  split
  · split
    · rename_i entry cache' hget
      intro hf
      exfalso
      obtain ⟨k, hmem⟩ := lruGet_hit_mem cache url entry cache' hget
      have hsucc := hwf (k, entry) hmem
      unfold cachedToGetResult at hf
      rw [hsucc] at hf
      simp at hf
    · intro hf
      exact fetchResult_typed o url hf
  · intro hf
    exact fetchResult_typed o url hf

/-- C5 witness: the theorem applied with an empty cache and an oracle whose
GET times out. -/
theorem httpGet_failures_typed_witness :
    ∃ m, (httpClientGet { useCache := true, maxCacheSize := 128 } []
      { headOutcome := Except.error (PyExn.reqError "head down"),
        getOutcome := Except.error PyExn.timeout,
        rangeGetOutcome := Except.error PyExn.timeout,
        fallbackGetOutcome := Except.error PyExn.timeout }
      "http://target.example/f").1.error = some m ∧ errorIsTyped m :=
  httpGet_failures_typed { useCache := true, maxCacheSize := 128 } []
    { headOutcome := Except.error (PyExn.reqError "head down"),
      getOutcome := Except.error PyExn.timeout,
      rangeGetOutcome := Except.error PyExn.timeout,
      fallbackGetOutcome := Except.error PyExn.timeout }
    "http://target.example/f" (by intro p hp; cases hp) (by rfl)

/-!
## Claim C6

Cache correctness of HttpClient.get: after a first successful GET with
caching on, every further GET to the same URL is answered from the cache
and performs no network request; only successful results are ever written
to the cache, so a failing call leaves it unchanged; and LRUCache.put keeps
the entry count bounded by max_size, evicting exactly the least recently
used (front) entry once full.  The bound assumes at least one slot of
capacity, the configuration used everywhere in the repository (the default
is 128, the scanner uses 256; with capacity zero the Python popitem would
raise on an empty OrderedDict).
-/

theorem lruGet_self (url : String) (e : CachedEntry) :
    lruGet [(url, e)] url = (some e, [(url, e)]) := by
  simp [lruGet, List.find?, List.filter]

theorem hit_no_network (cfg : HttpClientCfg) (url : String) (e : CachedEntry)
    (o : NetOracle) (hc : cfg.useCache = true) :
    httpClientGet cfg [(url, e)] o url = (cachedToGetResult e, [(url, e)], false) := by
  unfold httpClientGet
  rw [if_pos hc, lruGet_self]

theorem runCalls_singleton_no_network (cfg : HttpClientCfg) (url : String)
    (e : CachedEntry) (hc : cfg.useCache = true) (oracles : List NetOracle) :
    ∀ pr ∈ (runCalls cfg [(url, e)] url oracles).1, pr.2 = false := by
  induction oracles with
  | nil =>
    intro pr hpr
    simp [runCalls] at hpr
  | cons o os ih =>
    intro pr hpr
    unfold runCalls at hpr
    rw [hit_no_network cfg url e o hc] at hpr
    simp only [List.mem_cons] at hpr
    rcases hpr with h | h
    · rw [h]
    · exact ih pr h

theorem lruPut_nil (maxSize : Nat) (url : String) (e : CachedEntry)
    (hmax : 0 < maxSize) : lruPut maxSize ([] : List (String × CachedEntry)) url e =
      [(url, e)] := by
  unfold lruPut
  rw [if_neg (by simp [List.find?]), if_neg (by simp; omega)]
  rfl

theorem first_call_empty_cache (cfg : HttpClientCfg) (o : NetOracle) (url : String)
    (hc : cfg.useCache = true) (hmax : 0 < cfg.maxCacheSize)
    (hs : (httpClientGet cfg [] o url).1.success = true) :
    (httpClientGet cfg [] o url).2.1 = [(url, mkCachedEntry (fetchResult o url))] := by
  unfold httpClientGet at hs ⊢
  rw [if_pos hc] at hs ⊢
  have hnil : lruGet ([] : List (String × CachedEntry)) url = (none, []) := rfl
  rw [hnil] at hs ⊢
  unfold networkFetch at hs ⊢
  simp only at hs ⊢
  rw [if_pos ⟨hc, hs⟩]
  exact lruPut_nil cfg.maxCacheSize url (mkCachedEntry (fetchResult o url)) hmax

/-- Members of the put result are either old members or the new entry. -/
theorem lruPut_mem {α : Type} (maxSize : Nat) (cache : List (String × α)) (k : String)
    (v : α) (p : String × α) (hp : p ∈ lruPut maxSize cache k v) :
    p ∈ cache ∨ p = (k, v) := by
  unfold lruPut at hp
  split at hp
  · rcases List.mem_append.mp hp with h | h
    · exact Or.inl (List.mem_of_mem_filter h)
    · simp at h
      exact Or.inr (by rw [h])
  · split at hp
    · rcases List.mem_append.mp hp with h | h
      · exact Or.inl (List.mem_of_mem_drop h)
      · simp at h
        exact Or.inr (by rw [h])
    · rcases List.mem_append.mp hp with h | h
      · exact Or.inl h
      · simp at h
        exact Or.inr (by rw [h])

/-- Members of the cache returned by a get are members of the old cache
(possibly reordered). -/
theorem lruGet_mem {α : Type} (cache : List (String × α)) (url : String)
    (p : String × α) (hp : p ∈ (lruGet cache url).2) : p ∈ cache := by
  unfold lruGet at hp
  split at hp
  · rename_i q hfind
    simp only at hp
    rcases List.mem_append.mp hp with h | h
    · exact List.mem_of_mem_filter h
    · simp at h
      have hq := List.mem_of_find?_eq_some hfind
      have heq : q.1 = url := by
        have := List.find?_some hfind
        simpa using this
      rw [h, ← heq]
      simpa using hq
  · exact hp

/-- If the key is absent and the cache is exactly full, put drops the front
entry (the least recently used one) and appends the new pair. -/
theorem lruPut_evicts_lru {α : Type} (maxSize : Nat) (cache : List (String × α))
    (k : String) (v : α)
    (habsent : cache.find? (fun p => p.1 == k) = none)
    (hfull : cache.length = maxSize) :
    lruPut maxSize cache k v = cache.drop 1 ++ [(k, v)] := by
  unfold lruPut
  rw [if_neg (by rw [habsent]; simp), if_pos (by omega)]

/-- Capacity is preserved by put when there is at least one slot. -/
theorem lruPut_bounded {α : Type} (maxSize : Nat) (cache : List (String × α))
    (k : String) (v : α) (hmax : 0 < maxSize) (hlen : cache.length ≤ maxSize) :
    (lruPut maxSize cache k v).length ≤ maxSize := by
  have key : ∀ l : List (String × α), (l.find? (fun p => p.1 == k)).isSome = true →
      (l.filter (fun q => q.1 != k)).length + 1 ≤ l.length := by
    intro l
    induction l with
    | nil =>
      intro hfind
      simp [List.find?] at hfind
    | cons x xs ih =>
      intro hfind
      by_cases hx : (x.1 == k) = true
      · have hxne : (x.1 != k) = false := by simp [bne, hx]
        rw [List.filter_cons, hxne]
        have := List.length_filter_le (fun q => q.1 != k) xs
        simp only [Bool.false_eq_true, if_false, List.length_cons]
        omega
      · have hb : (x.1 == k) = false := by
          revert hx
          cases x.1 == k <;> simp
        have hxne : (x.1 != k) = true := by simp [bne, hb]
        have hfind' : (xs.find? (fun p => p.1 == k)).isSome = true := by
          rw [List.find?_cons_of_neg _ (by simp [hb])] at hfind
          exact hfind
        have ih' := ih hfind'
        rw [List.filter_cons, hxne]
        simp only [if_true, List.length_cons]
        omega
  unfold lruPut
  split
  · rename_i hfind
    rw [List.length_append]
    have := key cache hfind
    simp only [List.length_cons, List.length_nil]
    omega
  · split
    · rename_i hge
      rw [List.length_append, List.length_drop]
      simp only [List.length_cons, List.length_nil]
      omega
    · rename_i hlt
      rw [List.length_append]
      simp only [List.length_cons, List.length_nil]
      omega

/-- C6: cache correctness of HttpClient.get.  First conjunct: with caching
on, spare capacity and a successful first call from an empty cache, no
later call of a run of identical GETs performs a network request.  Second:
the cache only ever holds successful entries.  Third: a failing call leaves
the cache unchanged.  Fourth and fifth: LRUCache.put never exceeds max_size
(given a slot of capacity) and, on a full cache and a new key, evicts
exactly the least recently used entry. -/
theorem http_cache_correct :
    (∀ (cfg : HttpClientCfg) (o1 : NetOracle) (url : String) (oracles : List NetOracle),
       cfg.useCache = true → 0 < cfg.maxCacheSize →
       (httpClientGet cfg [] o1 url).1.success = true →
       ∀ pr ∈ (runCalls cfg ((httpClientGet cfg [] o1 url).2.1) url oracles).1,
         pr.2 = false)
    ∧ (∀ (cfg : HttpClientCfg) (cache : List (String × CachedEntry)) (o : NetOracle)
         (url : String), (∀ p ∈ cache, p.2.success = true) →
         ∀ p ∈ (httpClientGet cfg cache o url).2.1, p.2.success = true)
    ∧ (∀ (cfg : HttpClientCfg) (cache : List (String × CachedEntry)) (o : NetOracle)
         (url : String), (∀ p ∈ cache, p.2.success = true) →
         (httpClientGet cfg cache o url).1.success = false →
         (httpClientGet cfg cache o url).2.1 = cache)
    ∧ (∀ (maxSize : Nat) (cache : List (String × CachedEntry)) (k : String)
         (v : CachedEntry), 0 < maxSize → cache.length ≤ maxSize →
         (lruPut maxSize cache k v).length ≤ maxSize)
    ∧ (∀ (maxSize : Nat) (cache : List (String × CachedEntry)) (k : String)
         (v : CachedEntry), cache.find? (fun p => p.1 == k) = none →
         cache.length = maxSize →
         lruPut maxSize cache k v = cache.drop 1 ++ [(k, v)]) := by
  refine ⟨?_, ?_, ?_, ?_, ?_⟩
  · intro cfg o1 url oracles hc hmax hs
    rw [first_call_empty_cache cfg o1 url hc hmax hs]
    exact runCalls_singleton_no_network cfg url (mkCachedEntry (fetchResult o1 url)) hc oracles
  · intro cfg cache o url hwf p hp
    unfold httpClientGet at hp
    split at hp
    · revert hp
      split
      · rename_i entry cache' hget
        intro hp
        simp only at hp
        have : (some entry, cache') = lruGet cache url := by rw [hget]
        have hmem : p ∈ (lruGet cache url).2 := by
          rw [← this]
          exact hp
        exact hwf p (lruGet_mem cache url p hmem)
      · intro hp
        unfold networkFetch at hp
        simp only at hp
        revert hp
        split
        · rename_i hcond
          intro hp
          rcases lruPut_mem cfg.maxCacheSize cache url (mkCachedEntry (fetchResult o url)) p hp with h | h
          · exact hwf p h
          · rw [h]
            exact hcond.2
        · intro hp
          exact hwf p hp
    · unfold networkFetch at hp
      simp only at hp
      revert hp
      split
      · rename_i hcond
        intro hp
        rcases lruPut_mem cfg.maxCacheSize cache url (mkCachedEntry (fetchResult o url)) p hp with h | h
        · exact hwf p h
        · rw [h]
          exact hcond.2
      · intro hp
        exact hwf p hp
  · intro cfg cache o url hwf hf
    by_cases hc : cfg.useCache = true
    · unfold httpClientGet at hf ⊢
      rw [if_pos hc] at hf ⊢
      cases hget : lruGet cache url with
      | mk fst snd =>
        rw [hget] at hf
        cases fst with
        | some entry =>
          exfalso
          obtain ⟨k, hmem⟩ := lruGet_hit_mem cache url entry snd hget
          have hsucc := hwf (k, entry) hmem
          simp only at hf
          unfold cachedToGetResult at hf
          rw [hsucc] at hf
          simp at hf
        | none =>
          simp only at hf ⊢
          unfold networkFetch at hf ⊢
          simp only at hf ⊢
          rw [if_neg]
          intro hcond
          rw [hcond.2] at hf
          cases hf
    · unfold httpClientGet at hf ⊢
      rw [if_neg hc] at hf ⊢
      unfold networkFetch at hf ⊢
      simp only at hf ⊢
      rw [if_neg]
      intro hcond
      exact hc hcond.1
  · intro maxSize cache k v hmax hlen
    exact lruPut_bounded maxSize cache k v hmax hlen
  · intro maxSize cache k v habsent hfull
    exact lruPut_evicts_lru maxSize cache k v habsent hfull

/-- The oracle of the C6 witness: the HEAD probe fails with a requests
exception (swallowed by the source), the GET succeeds. -/
def cacheWitnessOracle : NetOracle :=
  { headOutcome := Except.error (PyExn.reqError "no head"),
    getOutcome := Except.ok { status_code := 200, headers := [("Content-Type", "text/html")], content := [104, 105] },
    rangeGetOutcome := Except.error PyExn.timeout,
    fallbackGetOutcome := Except.error PyExn.timeout }

/-- A successful cached entry used by the C6 witness. -/
def cacheWitnessEntry : CachedEntry :=
  { success := true, error := none, time := 0, status_code := 200, headers := [] }

/-- C6 witness: the cache-correctness theorem applied at concrete inputs: a
run of three identical GETs of which only the first touches the network, the
capacity bound at max size one, and the eviction of the least recently used
entry from a full one-slot cache. -/
theorem http_cache_correct_witness :
    (∀ pr ∈ (runCalls { useCache := true, maxCacheSize := 2 }
        ((httpClientGet { useCache := true, maxCacheSize := 2 } [] cacheWitnessOracle
          "http://target.example/c").2.1)
        "http://target.example/c" [cacheWitnessOracle, cacheWitnessOracle]).1,
      pr.2 = false)
    ∧ (lruPut 1 [("http://k", cacheWitnessEntry)] "http://j" cacheWitnessEntry).length ≤ 1
    ∧ lruPut 1 [("http://k", cacheWitnessEntry)] "http://j" cacheWitnessEntry =
        [("http://j", cacheWitnessEntry)] :=
  ⟨http_cache_correct.1 { useCache := true, maxCacheSize := 2 } cacheWitnessOracle
      "http://target.example/c" [cacheWitnessOracle, cacheWitnessOracle]
      rfl (by decide) (by rfl),
   http_cache_correct.2.2.2.1 1 [("http://k", cacheWitnessEntry)] "http://j"
      cacheWitnessEntry (by decide) (by decide),
   http_cache_correct.2.2.2.2 1 [("http://k", cacheWitnessEntry)] "http://j"
      cacheWitnessEntry (by decide) (by decide)⟩

/-!
## Claim C7

For an IPv4-literal hostname, generate_test_urls skips only the
domain-tests task (no Subdomain, Domain Name, Domain or permutation
probes).  It does not restrict itself to the fixed common admin-directory
and alternate-port probes: the leftover/environment task still runs — and,
because tldextract reports the whole IP literal as the domain for IPv4
addresses, it emits domain-backup probes built from the IP — while the
IP-specific common-path and port probes are generated only when the target
URL has a path (the IP path task is submitted only under path_label).
-/

/-- The generator input for the plain IP target of the claim scenario,
https scheme aside: hostname 192.0.2.10 with no path.  tldextract returns
subdomain empty, domain equal to the IP literal and suffix empty for IPv4
addresses, which gives the component fields below. -/
def ipTargetInput : GenInput :=
  { scheme := "http", hostname := "192.0.2.10", subdomain := "",
    domainName := "192.0.2.10", suffix := "", path := "" }

/-- The same IP target with path app, for the path-dependent half. -/
def ipTargetPathInput : GenInput :=
  { scheme := "http", hostname := "192.0.2.10", subdomain := "",
    domainName := "192.0.2.10", suffix := "", path := "app" }

/-- C7 counterexample: for the IP target of the claim scenario the
generator emits the probe 192.0.2.10_backup, a leftover probe built from
the IP standing in as the domain name — not one of the fixed common
admin-directory names, not a port probe, and not a path or segment test
(the target has no path) — and, the path being empty, emits none of the
IP-specific probes at all (no tag starts with IP-). -/
theorem ip_generation_counterexample :
    isIpAddress "192.0.2.10" = true
    ∧ ("http://192.0.2.10/192.0.2.10_backup", "Domain Backup: 192.0.2.10_backup") ∈
        (generate_test_urls ipTargetInput).tests
    ∧ "192.0.2.10_backup" ∉ COMMON_IP_PATH_TESTS
    ∧ "192.0.2.10_backup" ∉ COMMON_PORTS
    ∧ (∀ p ∈ (generate_test_urls ipTargetInput).tests, pyStartsWith p.2 "IP-" = false) := by
  refine ⟨by decide, by decide, by decide, by decide, by decide⟩

set_option maxRecDepth 8000

/-- C7 (amended): for IP-literal hostnames the domain-tests task is the one
skipped (so the task list is base tests, leftover tests, and the IP path
tests exactly when a path is present); the leftover/environment probes are
still emitted, among them the domain-backup probes built from the IP
literal, and no Domain Name, Domain, Subdomain or Permutation probe is
generated; the common admin-directory probes appear once the target has a
path. -/
theorem ip_generation_amended :
    (∀ i : GenInput, isIpAddress i.hostname = true →
       scheduledGenTasks i = [GenTask.baseT, GenTask.leftoverT] ++
         (if i.path = "" then [] else [GenTask.ipPathT]))
    ∧ (∀ p ∈ (generate_test_urls ipTargetInput).tests,
        p.2 ≠ "Domain Name" ∧ p.2 ≠ "Domain" ∧ pyStartsWith p.2 "Subdomain:" = false
          ∧ pyStartsWith p.2 "Permutation" = false)
    ∧ ("http://192.0.2.10/192.0.2.10_backup", "Domain Backup: 192.0.2.10_backup") ∈
        (generate_test_urls ipTargetInput).tests
    ∧ ("http://192.0.2.10/app/admin", "IP-Path-Common: /app/admin") ∈
        (generate_test_urls ipTargetPathInput).tests := by
  refine ⟨?_, by decide, by decide, by decide⟩
  intro i hip
  unfold scheduledGenTasks
  rw [hip]
  by_cases hp : i.path = ""
  · simp [GenInput.pathLabel, hp]
  · simp [GenInput.pathLabel, hp]

/-- C7 witness: the task-list half of the amended theorem applied at the
concrete IP targets with and without a path. -/
theorem ip_generation_witness :
    scheduledGenTasks ipTargetInput = [GenTask.baseT, GenTask.leftoverT] ++
      (if ipTargetInput.path = "" then [] else [GenTask.ipPathT])
    ∧ scheduledGenTasks ipTargetPathInput = [GenTask.baseT, GenTask.leftoverT] ++
      (if ipTargetPathInput.path = "" then [] else [GenTask.ipPathT]) :=
  ⟨ip_generation_amended.1 ipTargetInput (by decide),
   ip_generation_amended.1 ipTargetPathInput (by decide)⟩

/-!
## Claim C8

The brute-force filter for IP hosts (url_utils.py lines 466 to 472) does
not remove every word with an embedded dot-env: it tests for the substring
dot-env-dot (and dot-git, and a leading dot).  A word such as backup.env —
ambiguous in the sense of the claim — survives the filter and produces a
brute-force candidate.  What the code guarantees instead: the filter keeps
exactly the words that do not start with a dot, do not contain dot-env-dot
and do not contain dot-git, and every brute-force candidate is built from a
kept word.
-/

/-- The generator input for the C8 scenario: brute force against the IP
target with the single wordlist word backup.env. -/
def ipBruteInput : GenInput :=
  { scheme := "http", hostname := "192.0.2.10", subdomain := "",
    domainName := "192.0.2.10", suffix := "", path := "",
    bruteMode := true, backupWords := ["backup.env"] }

/-- C8 counterexample: the word backup.env has an embedded dot-env (so the
claim says it must be filtered out before brute-force expansion), does not
start with a dot, yet the generator emits the brute-force candidate built
from it against the IP host. -/
theorem ip_brute_filter_counterexample :
    strContains "backup.env" ".env" = true
    ∧ pyStartsWith "backup.env" "." = false
    ∧ ("http://192.0.2.10/backup.env", "Brute Force: backup.env") ∈
        (generate_test_urls ipBruteInput).tests := by
  refine ⟨by decide, by decide, by decide⟩

/-- C8 (amended): on an IP-literal host the brute-force word filter keeps
exactly the words that neither start with a dot nor contain dot-env-dot nor
contain dot-git; every brute-force call is built from a kept word (its tag
is the brute-force tag of that word and its URL ends in slash-word). -/
theorem ip_brute_filter_amended (i : GenInput) (hip : isIpAddress i.hostname = true) :
    (i.filteredBackupWords = i.backupWords.filter (fun w => !(ipAmbiguousWord w)))
    ∧ (∀ c ∈ bruteForceCalls i, ∃ w, w ∈ i.backupWords ∧ ipAmbiguousWord w = false ∧
        (c.2 = "Brute Force: " ++ w ∨ c.2 = "Brute Force Recursive: " ++ w) ∧
        ∃ pre, c.1 = pre ++ "/" ++ w) := by
  have hfilter : i.filteredBackupWords =
      i.backupWords.filter (fun w => !(ipAmbiguousWord w)) := by
    unfold GenInput.filteredBackupWords
    rw [if_pos hip]
  refine ⟨hfilter, ?_⟩
  intro c hc
  have hword : ∀ w ∈ i.filteredBackupWords.filter wordHasExtension ++
      i.filteredBackupWords.filter (fun w => !(wordHasExtension w)),
      w ∈ i.backupWords ∧ ipAmbiguousWord w = false := by
    intro w hw
    rcases List.mem_append.mp hw with h | h
    · have h' := List.mem_of_mem_filter h
      rw [hfilter] at h'
      rcases List.mem_filter.mp h' with ⟨hmem, hkeep⟩
      exact ⟨hmem, by simpa using hkeep⟩
    · have h' := List.mem_of_mem_filter h
      rw [hfilter] at h'
      rcases List.mem_filter.mp h' with ⟨hmem, hkeep⟩
      exact ⟨hmem, by simpa using hkeep⟩
  unfold bruteForceCalls at hc
  simp only at hc
  rcases List.mem_append.mp hc with h | h
  · rcases List.mem_map.mp h with ⟨w, hw, hcw⟩
    obtain ⟨hmem, hkeep⟩ := hword w hw
    exact ⟨w, hmem, hkeep, Or.inl (by rw [← hcw]), ⟨_, by rw [← hcw]⟩⟩
  · revert h
    split
    · intro h
      rcases List.mem_flatMap.mp h with ⟨lv, hlv, hin⟩
      rcases List.mem_map.mp hin with ⟨w, hw, hcw⟩
      obtain ⟨hmem, hkeep⟩ := hword w hw
      exact ⟨w, hmem, hkeep, Or.inr (by rw [← hcw]), ⟨lv, by rw [← hcw]⟩⟩
    · intro h
      cases h

/-- C8 witness: the amended theorem applied at the concrete brute-force IP
input of the counterexample. -/
theorem ip_brute_filter_witness :
    (ipBruteInput.filteredBackupWords =
      ipBruteInput.backupWords.filter (fun w => !(ipAmbiguousWord w)))
    ∧ (∀ c ∈ bruteForceCalls ipBruteInput, ∃ w, w ∈ ipBruteInput.backupWords ∧
        ipAmbiguousWord w = false ∧
        (c.2 = "Brute Force: " ++ w ∨ c.2 = "Brute Force Recursive: " ++ w) ∧
        ∃ pre, c.1 = pre ++ "/" ++ w) :=
  ip_brute_filter_amended ipBruteInput (by decide)

/-!
## Claim C9

The parallel generator tasks of generate_test_urls share the tests list and
the added_urls set without a lock; the thread-pool interleaving decides, for
a URL produced by two different tasks, which test_type tag is recorded.
With hostname dev.example.com the URL /dev is produced both by the domain
task (tag Subdomain:dev) and by the leftover task (tag Environment: dev),
so two legitimate schedules produce different (url, test_type) sets and the
claim fails.  What does hold: within one run no URL is ever recorded twice,
and the set of URLs (tags ignored) is the same for every interleaving of
the parallel phase.
-/

/-- Well-formedness of the shared generator state: recorded URLs are
pairwise distinct and coincide with the members of the added set. -/
def GenWF (st : GenState) : Prop :=
  (st.tests.map Prod.fst).Nodup ∧ ∀ u, u ∈ st.tests.map Prod.fst ↔ u ∈ st.added

theorem addTest_wf (st : GenState) (p : String × String) (h : GenWF st) :
    GenWF (addTest st p) := by
  obtain ⟨hnd, hiff⟩ := h
  unfold addTest
  split
  · exact ⟨hnd, hiff⟩
  · rename_i hnot
    constructor
    · rw [List.map_append]
      rw [List.nodup_append]
      refine ⟨hnd, by simp, ?_⟩
      intro u hu
      simp only [List.map_cons, List.map_nil, List.mem_singleton]
      intro he
      exact hnot (by rw [← he]; exact (hiff u).mp hu)
    · intro u
      rw [List.map_append]
      simp only [List.mem_append, List.map_cons, List.map_nil, List.mem_singleton,
        List.not_mem_nil, or_false]
      rw [hiff u]

theorem foldl_addTest_wf (l : List (String × String)) (st : GenState) (h : GenWF st) :
    GenWF (l.foldl addTest st) := by
  induction l generalizing st with
  | nil => exact h
  | cons p rest ih => exact ih (addTest st p) (addTest_wf st p h)

theorem foldl_addTest_added_mem (l : List (String × String)) (st : GenState) (u : String) :
    u ∈ (l.foldl addTest st).added ↔ u ∈ st.added ∨ u ∈ l.map Prod.fst := by
  induction l generalizing st with
  | nil => simp
  | cons p rest ih =>
    simp only [List.foldl_cons, List.map_cons, List.mem_cons]
    rw [ih]
    unfold addTest
    split
    · rename_i hmem
      constructor
      · rintro (h | h)
        · exact Or.inl h
        · exact Or.inr (Or.inr h)
      · rintro (h | h | h)
        · exact Or.inl h
        · exact Or.inl (h ▸ hmem)
        · exact Or.inr h
    · simp only [List.mem_append, List.mem_singleton]
      constructor
      · rintro ((h | h) | h)
        · exact Or.inl h
        · exact Or.inr (Or.inl h)
        · exact Or.inr (Or.inr h)
      · rintro (h | h | h)
        · exact Or.inl (Or.inl h)
        · exact Or.inl (Or.inr h)
        · exact Or.inr h

theorem runGenerateWith_wf (i : GenInput) (cs : List (String × String)) :
    GenWF (runGenerateWith i cs) := by
  have h0 : GenWF { tests := [], added := [] } := by
    constructor
    · simp
    · intro u
      simp
  unfold runGenerateWith
  split
  · exact foldl_addTest_wf (bruteForceCalls i) _ (foldl_addTest_wf cs _ h0)
  · exact foldl_addTest_wf cs _ h0

theorem runGenerateWith_added_mem (i : GenInput) (cs : List (String × String))
    (u : String) :
    u ∈ (runGenerateWith i cs).added ↔
      u ∈ cs.map Prod.fst ∨
        ((i.bruteMode ∧ i.backupWords ≠ []) ∧ u ∈ (bruteForceCalls i).map Prod.fst) := by
  unfold runGenerateWith
  split
  · rename_i hbr
    rw [foldl_addTest_added_mem, foldl_addTest_added_mem]
    simp [hbr]
  · rename_i hbr
    rw [foldl_addTest_added_mem]
    simp [hbr]

/-- C9 (amended): for every interleaving of the parallel-phase add_test
calls (every permutation of the task call multiset), the recorded URLs are
pairwise distinct, and the set of URLs is the one of the submission-order
schedule — generation is deterministic in the URL set, but not in the tags,
as the counterexample shows. -/
theorem generation_determinism_amended (i : GenInput) (calls : List (String × String))
    (hperm : calls.Perm (parallelCalls i)) :
    ((runGenerateWith i calls).tests.map Prod.fst).Nodup ∧
    ((runGenerateWith i calls).tests.map Prod.fst).toFinset =
      ((generate_test_urls i).tests.map Prod.fst).toFinset := by
  refine ⟨(runGenerateWith_wf i calls).1, ?_⟩
  apply Finset.ext
  intro u
  rw [List.mem_toFinset, List.mem_toFinset]
  unfold generate_test_urls
  rw [(runGenerateWith_wf i calls).2 u, (runGenerateWith_wf i (parallelCalls i)).2 u]
  rw [runGenerateWith_added_mem, runGenerateWith_added_mem]
  rw [(hperm.map Prod.fst).mem_iff]

/-- The generator input of the C9 counterexample: target
http://dev.example.com with no path (tldextract: subdomain dev, domain
example, suffix com). -/
def devTargetInput : GenInput :=
  { scheme := "http", hostname := "dev.example.com", subdomain := "dev",
    domainName := "example", suffix := "com", path := "" }

/-- The parallel-phase calls under a schedule that runs the leftover task
before the domain task (both orders are produced by the thread pool of
generate_test_urls, which executes the submitted tasks concurrently). -/
def devScheduleB : List (String × String) :=
  [GenTask.baseT, GenTask.leftoverT, GenTask.domainT].flatMap (taskCalls devTargetInput)

/-- C9 counterexample: the alternative schedule is a permutation of the
submission-order parallel phase, yet the two runs disagree on the recorded
(url, test_type) pair for http://dev.example.com/dev — Subdomain:dev under
one schedule, Environment: dev under the other — so two runs of generation
do not produce equal (url, test_type) sets and a URL carries two different
tags across runs. -/
theorem generation_determinism_counterexample :
    devScheduleB.Perm (parallelCalls devTargetInput)
    ∧ ("http://dev.example.com/dev", "Subdomain:dev") ∈
        (runGenerateWith devTargetInput (parallelCalls devTargetInput)).tests
    ∧ ("http://dev.example.com/dev", "Subdomain:dev") ∉
        (runGenerateWith devTargetInput devScheduleB).tests
    ∧ ("http://dev.example.com/dev", "Environment: dev") ∈
        (runGenerateWith devTargetInput devScheduleB).tests := by
  refine ⟨by decide, by decide, by decide, by decide⟩

/-- C9 witness: the amended theorem applied to the concrete alternative
schedule of the counterexample. -/
theorem generation_determinism_witness :
    ((runGenerateWith devTargetInput devScheduleB).tests.map Prod.fst).Nodup ∧
    ((runGenerateWith devTargetInput devScheduleB).tests.map Prod.fst).toFinset =
      ((generate_test_urls devTargetInput).tests.map Prod.fst).toFinset :=
  generation_determinism_amended devTargetInput devScheduleB (by decide)

end LeftOvers
